import Mathlib

/-!
Verification of the JSON-to-object hydration core of the `animethemes`
client library (file `animethemes/schema.py`), as a shallow embedding.

JSON values are modelled by the inductive `Json` (numbers as integers: the
API payloads the hydrator consumes carry integral ids and counts).  A
Python `dict.get(key)` returns `None` both for a missing key and for a
stored JSON `null`; the model mirrors this with `Json.get`, which yields
`Json.null` in both cases, exactly the conflation the source relies on.
Hydrated objects are modelled by `Entity`: the retained raw payload plus an
attribute map written by `setattr`; later writes shadow earlier ones, which
the association list realises by putting later segments first.

Fallible steps return `Except PyError`: `malformedTimestamp` stands for the
date parser's failure (`dateutil.parser.ParserError`), `attributeError` and
`typeError` for the corresponding Python exceptions.
-/

inductive Json where
  | null : Json
  | bool (b : Bool) : Json
  | num (n : Int) : Json
  | str (s : String) : Json
  | arr (elems : List Json) : Json
  | obj (fields : List (String × Json)) : Json
deriving Repr

/-- Association lookup in a JSON object; `none` on a non-object, mirroring
that only dict payloads reach the lookup sites in the source. -/
def Json.lookup : Json → String → Option Json
  | .obj fields, key => List.lookup key fields
  | _, _ => none

/-- Model of Python `data.get(key, default)`. -/
def Json.getD (j : Json) (key : String) (d : Json) : Json :=
  (j.lookup key).getD d

/-- Model of Python `data.get(key)`: a missing key and a stored JSON `null`
both come back as `Json.null` (Python `None`). -/
def Json.get (j : Json) (key : String) : Json :=
  j.getD key .null

/-- Python truthiness of a JSON value. -/
def Json.truthy : Json → Bool
  | .null => false
  | .bool b => b
  | .num n => n != 0
  | .str s => !(s == "")
  | .arr elems => !elems.isEmpty
  | .obj fields => !fields.isEmpty

theorem sizeOf_lookup_lt {fields : List (String × Json)} {key : String} {v : Json}
    (h : List.lookup key fields = some v) : sizeOf v < sizeOf fields := by
  induction fields with
  | nil => simp [List.lookup] at h
  | cons p rest ih =>
      obtain ⟨k, w⟩ := p
      rw [List.lookup] at h
      split at h
      · cases h
        simp only [List.cons.sizeOf_spec, Prod.mk.sizeOf_spec]
        omega
      · have := ih h
        simp only [List.cons.sizeOf_spec, Prod.mk.sizeOf_spec]
        omega

theorem Json.sizeOf_lookup {j : Json} {key : String} {v : Json}
    (h : Json.lookup j key = some v) : sizeOf v < sizeOf j := by
  cases j <;> simp [Json.lookup] at h
  case obj fields =>
    have := sizeOf_lookup_lt h
    simp only [Json.obj.sizeOf_spec]
    omega

theorem Json.sizeOf_get {j : Json} {key : String} {v : Json}
    (h : Json.get j key = v) (hv : v ≠ Json.null) : sizeOf v < sizeOf j := by
  rw [Json.get, Json.getD] at h
  cases hl : Json.lookup j key with
  | none => rw [hl] at h; simp [Option.getD] at h; exact absurd h.symm hv
  | some w =>
      rw [hl] at h
      simp [Option.getD] at h
      subst h
      exact Json.sizeOf_lookup hl

/-- Structured date-time value produced by timestamp parsing. -/
structure DateTime where
  year : Nat
  month : Nat
  day : Nat
  hour : Nat
  minute : Nat
  second : Nat
deriving DecidableEq, Repr

def digitVal (c : Char) : Option Nat :=
  if c.isDigit then some (c.toNat - 48) else none

def digits2 (a b : Char) : Option Nat := do
  let x ← digitVal a
  let y ← digitVal b
  pure (10 * x + y)

def digits4 (a b c d : Char) : Option Nat := do
  let x ← digits2 a b
  let y ← digits2 c d
  pure (100 * x + y)

/-- Modelled from the spec: timestamp parsing is delegated to an external
date-time parsing dependency (`dateutil.parser.parse`), which is not part of
this repository.  The spec says a declared timestamp field is "parsed into a
structured date-time value" and that unparseable strings fail; the model
accepts the ISO 8601 shapes the API serves (`YYYY-MM-DDTHH:MM:SSZ` and
`YYYY-MM-DD`, ASCII digits, validated ranges) and rejects everything else. -/
def parsedatetime (s : String) : Option DateTime :=
  match s.toList with
  | [y1, y2, y3, y4, h5, m1, m2, h8, d1, d2, t11, hh1, hh2, c14, mi1, mi2, c17, ss1, ss2, z20] =>
      if h5 == '-' && h8 == '-' && t11 == 'T' && c14 == ':' && c17 == ':' && z20 == 'Z' then
        match digits4 y1 y2 y3 y4, digits2 m1 m2, digits2 d1 d2,
              digits2 hh1 hh2, digits2 mi1 mi2, digits2 ss1 ss2 with
        | some y, some mo, some dd, some hh, some mm, some ss =>
            if 1 ≤ mo && mo ≤ 12 && 1 ≤ dd && dd ≤ 31 && hh ≤ 23 && mm ≤ 59 && ss ≤ 59 then
              some ⟨y, mo, dd, hh, mm, ss⟩
            else none
        | _, _, _, _, _, _ => none
      else none
  | [y1, y2, y3, y4, h5, m1, m2, h8, d1, d2] =>
      if h5 == '-' && h8 == '-' then
        match digits4 y1 y2 y3 y4, digits2 m1 m2, digits2 d1 d2 with
        | some y, some mo, some dd =>
            if 1 ≤ mo && mo ≤ 12 && 1 ≤ dd && dd ≤ 31 then
              some ⟨y, mo, dd, 0, 0, 0⟩
            else none
        | _, _, _ => none
      else none
  | _ => none

/-- Failures raised by the embedded operations: `malformedTimestamp` is the
date parser's failure on a declared timestamp field (the spec's
`MalformedTimestamp`), `attributeError` and `typeError` stand for the Python
exceptions of the same names. -/
inductive PyError where
  | malformedTimestamp (field : String) (value : String) : PyError
  | attributeError : PyError
  | typeError : PyError
deriving DecidableEq, Repr

/-- Resource kinds, one per class of `schema.py`. -/
inductive Kind where
  | announcement | anime | artist | entry | resource | series
  | song | synonym | theme | video | searchResult | pagedResult
deriving DecidableEq, Repr

/-- Scalar field names each kind extracts verbatim, as passed by each
subclass constructor to `AnimeThemesObject.__init__`. -/
def kindKeys : Kind → List String
  | .announcement => ["id", "content"]
  | .anime => ["id", "name", "slug", "year", "season", "synopsis", "cover"]
  | .artist => ["id", "name", "slug"]
  | .entry => ["id", "version", "episodes", "nsfw", "spoiler", "notes"]
  | .resource => ["id", "external_id", "link", "site", "as"]
  | .series => ["id", "name", "slug"]
  | .song => ["id", "title"]
  | .synonym => ["id", "text"]
  | .theme => ["id", "type", "sequence", "group", "slug"]
  | .video => ["id", "basename", "filename", "path", "resolution", "nc",
               "subbed", "lyrics", "uncen", "source", "overlap", "link"]
  | .searchResult => []
  | .pagedResult => []

mutual
/-- Value of one attribute of a hydrated object: a raw JSON scalar, a parsed
timestamp, a singular related entity, or a list of related entities. -/
inductive AttrVal where
  | json (j : Json) : AttrVal
  | date (d : DateTime) : AttrVal
  | ent (e : Entity) : AttrVal
  | entList (es : List Entity) : AttrVal

/-- A hydrated object: its kind, the retained raw payload (`self._data`),
and the attribute map; a later `setattr` shadows an earlier one, realised by
listing later writes first and taking the first match on lookup. -/
inductive Entity where
  | mk (kind : Kind) (data : Json) (attrs : List (String × AttrVal)) : Entity
end

def Entity.kind : Entity → Kind
  | .mk k _ _ => k

def Entity.rawData : Entity → Json
  | .mk _ d _ => d

def Entity.attrs : Entity → List (String × AttrVal)
  | .mk _ _ a => a

/-- Model of Python `getattr`: first match wins, so the entries listed
earlier (the chronologically later `setattr`s) shadow the rest. -/
def Entity.getAttr (e : Entity) (key : String) : Option AttrVal :=
  List.lookup key e.attrs

/-- One optional attribute binding. -/
def optAttr (key : String) (v : Option AttrVal) : List (String × AttrVal) :=
  match v with
  | some av => [(key, av)]
  | none => []

/-- Attribute bindings of the scalar-field loop
`for key in keys: setattr(self, key, data.get(key))`. -/
def scalarSeg (kind : Kind) (j : Json) : List (String × AttrVal) :=
  (kindKeys kind).map (fun key => (key, AttrVal.json (j.get key)))

/-- Subclass-specific raw passthrough attributes set after the generic
constructor: `Artist` keeps `members` and `groups` verbatim. -/
def extraSeg (kind : Kind) (j : Json) : List (String × AttrVal) :=
  match kind with
  | .artist => [("members", AttrVal.json (j.getD ("members") (.arr []))),
                ("groups", AttrVal.json (j.getD ("groups") (.arr [])))]
  | _ => []

/-- One declared timestamp field: `if data.get(key): setattr(self, key,
parsedatetime(data[key]))`.  A falsy value is skipped; a truthy non-string
raises `TypeError` inside the parser; an unparseable string is the spec's
`MalformedTimestamp`. -/
def hydrateTimestamp (j : Json) (key : String) : Except PyError (Option DateTime) :=
  let v := j.get key
  if v.truthy then
    match v with
    | .str s =>
        match parsedatetime s with
        | some d => .ok (some d)
        | none => .error (.malformedTimestamp key s)
    | _ => .error .typeError
  else .ok none

/-- Timestamp attribute bindings. -/
def tsPart (c u : Option DateTime) : List (String × AttrVal) :=
  optAttr ("created_at") (c.map AttrVal.date) ++ optAttr ("updated_at") (u.map AttrVal.date)

/-- Singular-relation attribute bindings, written after the timestamps. -/
def singPart (a t s : Option Entity) : List (String × AttrVal) :=
  optAttr ("anime") (a.map AttrVal.ent) ++ optAttr ("theme") (t.map AttrVal.ent) ++
    optAttr ("song") (s.map AttrVal.ent)

/-- List-relation attribute bindings, written after the singular relations
(in particular a list stored under `anime` shadows a singular `anime`). -/
def listPart (l1 l2 l3 l4 l5 l6 l7 l8 l9 l10 : Option (List Entity)) :
    List (String × AttrVal) :=
  optAttr ("songs") (l1.map AttrVal.entList) ++ optAttr ("anime") (l2.map AttrVal.entList) ++
    optAttr ("themes") (l3.map AttrVal.entList) ++ optAttr ("videos") (l4.map AttrVal.entList) ++
    optAttr ("series") (l5.map AttrVal.entList) ++ optAttr ("entries") (l6.map AttrVal.entList) ++
    optAttr ("artists") (l7.map AttrVal.entList) ++ optAttr ("synonyms") (l8.map AttrVal.entList) ++
    optAttr ("resources") (l9.map AttrVal.entList) ++
    optAttr ("announcements") (l10.map AttrVal.entList)

/-- Full attribute map of a hydrated object, in shadowing order: the
chronological write order of `__init__` is scalars, timestamps, singular
relations, list relations, then the subclass extras, and a later write wins,
so the segments are listed in the reverse order. -/
def assembleAttrs (kind : Kind) (j : Json) (c u : Option DateTime)
    (a t s : Option Entity) (l1 l2 l3 l4 l5 l6 l7 l8 l9 l10 : Option (List Entity)) :
    List (String × AttrVal) :=
  extraSeg kind j ++ listPart l1 l2 l3 l4 l5 l6 l7 l8 l9 l10 ++ singPart a t s ++
    tsPart c u ++ scalarSeg kind j

mutual
/-- Hydration of one JSON payload as an entity of kind `kind`: the body of
`AnimeThemesObject.__init__` as invoked by the subclass constructor for
`kind`.  A non-dict payload fails on its first `data.get` (`AttributeError`). -/
def hydrate (kind : Kind) (j : Json) : Except PyError Entity :=
  match j with
  | .obj fields => do
      let c ← hydrateTimestamp (.obj fields) ("created_at")
      let u ← hydrateTimestamp (.obj fields) ("updated_at")
      let a ← singularRel (.obj fields) ("anime") .anime
      let t ← singularRel (.obj fields) ("theme") .theme
      let s ← singularRel (.obj fields) ("song") .song
      let songs ← listRel (.obj fields) ("songs") .song
      let animeL ← listRel (.obj fields) ("anime") .anime
      let themes ← listRel (.obj fields) ("themes") .theme
      let videos ← listRel (.obj fields) ("videos") .video
      let seriesL ← listRel (.obj fields) ("series") .series
      let entries ← listRel (.obj fields) ("entries") .entry
      let artists ← listRel (.obj fields) ("artists") .artist
      let synonyms ← listRel (.obj fields) ("synonyms") .synonym
      let resources ← listRel (.obj fields) ("resources") .resource
      let ann ← listRel (.obj fields) ("announcements") .announcement
      pure (Entity.mk kind (.obj fields)
        (assembleAttrs kind (.obj fields) c u a t s songs animeL themes videos
          seriesL entries artists synonyms resources ann))
  | _ => .error .attributeError
termination_by (sizeOf j, 5)
decreasing_by all_goals { apply Prod.Lex.right; omega }

/-- One singular relation:
`if isinstance(self._data.get(key), dict): setattr(self, key, cls(client, data.get(key, {})))`. -/
def singularRel (j : Json) (key : String) (kind : Kind) : Except PyError (Option Entity) :=
  match h : j.get key with
  | .obj kvs => (hydrate kind (.obj kvs)).map some
  | _ => .ok none
termination_by (sizeOf j, 1)
decreasing_by apply Prod.Lex.left; exact Json.sizeOf_get h (by simp)

/-- One list relation (`AnimeThemesObject._set_list_attrib`): when the key
holds a JSON array, hydrate each element in order; otherwise no write. -/
def listRel (j : Json) (key : String) (kind : Kind) : Except PyError (Option (List Entity)) :=
  match h : j.get key with
  | .arr xs => (hydrateList kind xs).map some
  | _ => .ok none
termination_by (sizeOf j, 2)
decreasing_by
  apply Prod.Lex.left
  have hlt := Json.sizeOf_get h (by simp)
  simp only [Json.arr.sizeOf_spec] at hlt
  omega

/-- Hydration of the elements of a relation array, left to right, as the
list comprehension `[atcls(self.client, x) for x in data_val]`. -/
def hydrateList (kind : Kind) (xs : List Json) : Except PyError (List Entity) :=
  match xs with
  | [] => .ok []
  | x :: rest => do
      let e ← hydrate kind x
      let es ← hydrateList kind rest
      pure (e :: es)
termination_by (sizeOf xs, 3)
decreasing_by
  · apply Prod.Lex.left
    simp only [List.cons.sizeOf_spec]
    omega
  · apply Prod.Lex.left
    simp only [List.cons.sizeOf_spec]
    omega
end

theorem except_bind_ok {α β : Type} (a : α) (f : α → Except PyError β) :
    (Except.ok a >>= f : Except PyError β) = f a := rfl

theorem except_bind_err {α β : Type} (e : PyError) (f : α → Except PyError β) :
    ((Except.error e : Except PyError α) >>= f) = Except.error e := rfl

theorem except_pure {α : Type} (a : α) : (pure a : Except PyError α) = Except.ok a := rfl

theorem except_map_ok {α β : Type} (f : α → β) (a : α) :
    (Except.ok a : Except PyError α).map f = Except.ok (f a) := rfl

theorem except_map_err {α β : Type} (f : α → β) (e : PyError) :
    ((Except.error e : Except PyError α).map f : Except PyError β) = Except.error e := rfl

theorem except_bind_eq_ok {α β : Type} {x : Except PyError α} {f : α → Except PyError β}
    {b : β} : x >>= f = Except.ok b ↔ ∃ a, x = Except.ok a ∧ f a = Except.ok b := by
  cases x with
  | ok a => simp [except_bind_ok]
  | error e => simp [except_bind_err]

theorem except_map_eq_ok {α β : Type} {x : Except PyError α} {f : α → β} {b : β} :
    x.map f = Except.ok b ↔ ∃ a, x = Except.ok a ∧ f a = b := by
  cases x with
  | ok a => simp [except_map_ok]
  | error e => simp [except_map_err]

/-- Anatomy of a successful hydration: the payload was a JSON object, every
timestamp and relation step succeeded, and the entity is the retained
payload together with the assembled attribute map. -/
theorem hydrate_ok_destruct {kind : Kind} {j : Json} {e : Entity}
    (h : hydrate kind j = .ok e) :
    ∃ fields c u a t s l1 l2 l3 l4 l5 l6 l7 l8 l9 l10,
      j = Json.obj fields ∧
      hydrateTimestamp j ("created_at") = .ok c ∧
      hydrateTimestamp j ("updated_at") = .ok u ∧
      singularRel j ("anime") .anime = .ok a ∧
      singularRel j ("theme") .theme = .ok t ∧
      singularRel j ("song") .song = .ok s ∧
      listRel j ("songs") .song = .ok l1 ∧
      listRel j ("anime") .anime = .ok l2 ∧
      listRel j ("themes") .theme = .ok l3 ∧
      listRel j ("videos") .video = .ok l4 ∧
      listRel j ("series") .series = .ok l5 ∧
      listRel j ("entries") .entry = .ok l6 ∧
      listRel j ("artists") .artist = .ok l7 ∧
      listRel j ("synonyms") .synonym = .ok l8 ∧
      listRel j ("resources") .resource = .ok l9 ∧
      listRel j ("announcements") .announcement = .ok l10 ∧
      e = Entity.mk kind j
        (assembleAttrs kind j c u a t s l1 l2 l3 l4 l5 l6 l7 l8 l9 l10) := by
  cases j with
  | obj fields =>
      simp only [hydrate, except_bind_eq_ok, except_pure, Except.ok.injEq] at h
      obtain ⟨c, hc, u, hu, a, ha, t, ht, s, hs, l1, h1, l2, h2, l3, h3, l4, h4, l5, h5,
        l6, h6, l7, h7, l8, h8, l9, h9, l10, h10, he⟩ := h
      exact ⟨fields, c, u, a, t, s, l1, l2, l3, l4, l5, l6, l7, l8, l9, l10, rfl,
        hc, hu, ha, ht, hs, h1, h2, h3, h4, h5, h6, h7, h8, h9, h10, he.symm⟩
  | null => simp [hydrate] at h
  | bool b => simp [hydrate] at h
  | num n => simp [hydrate] at h
  | str s => simp [hydrate] at h
  | arr elems => simp [hydrate] at h

theorem opt_orElse_some {β : Type} (v : β) (f : Unit → Option β) :
    (Option.some v).orElse f = some v := rfl

theorem opt_orElse_none {β : Type} (f : Unit → Option β) :
    (Option.none).orElse f = f () := rfl

theorem lookup_append {β : Type} (l1 l2 : List (String × β)) (key : String) :
    List.lookup key (l1 ++ l2) = ((List.lookup key l1).orElse fun _ => List.lookup key l2) := by
  induction l1 with
  | nil => rfl
  | cons p rest ih =>
      obtain ⟨k, v⟩ := p
      rw [List.cons_append, List.lookup, List.lookup]
      cases hkk : key == k
      · simp only [ih, opt_orElse_none, opt_orElse_some]
      · rfl

theorem lookup_optAttr (key k2 : String) (v : Option AttrVal) :
    List.lookup key (optAttr k2 v) = if key = k2 then v else none := by
  cases v with
  | none => simp [optAttr, List.lookup]
  | some av =>
      simp only [optAttr]
      rw [List.lookup]
      cases hkk : key == k2
      · rw [List.lookup]
        rw [if_neg (by simpa using (beq_eq_false_iff_ne.mp hkk))]
      · rw [if_pos (by simpa using hkk)]

theorem lookup_eq_none {β : Type} {l : List (String × β)} {key : String}
    (h : ∀ p ∈ l, p.1 ≠ key) : List.lookup key l = none := by
  induction l with
  | nil => rfl
  | cons p rest ih =>
      obtain ⟨k, v⟩ := p
      rw [List.lookup]
      cases hkk : key == k
      · exact ih (fun q hq => h q (List.mem_cons_of_mem _ hq))
      · have heq : key = k := by simpa using hkk
        exact absurd heq.symm (h (k, v) (List.mem_cons_self _ _))

theorem lookup_map_self {β : Type} {ks : List String} {key : String} (f : String → β)
    (h : key ∈ ks) : List.lookup key (ks.map fun k => (k, f k)) = some (f key) := by
  induction ks with
  | nil => cases h
  | cons k rest ih =>
      rw [List.map_cons, List.lookup]
      cases hkk : key == k
      · have hne : key ≠ k := by simpa using hkk
        rcases List.mem_cons.mp h with h1 | h2
        · exact absurd h1 hne
        · exact ih h2
      · have : key = k := by simpa using hkk
        subst this
        rfl

/-- Attribute names written by the hydrator other than the scalar loop:
the `Artist` extras, the ten list-relation keys, the three singular
relation keys, and the two timestamp keys. -/
def specialKeys : List String :=
  ["members", "groups", "songs", "anime", "themes", "videos", "series", "entries",
   "artists", "synonyms", "resources", "announcements", "theme", "song",
   "created_at", "updated_at"]

theorem kindKeys_disjoint_special :
    ∀ kind : Kind, ∀ key ∈ kindKeys kind, key ∉ specialKeys := by
  intro kind
  cases kind <;> decide

theorem lookup_extraSeg {kind : Kind} {j : Json} {key : String}
    (h1 : key ≠ "members") (h2 : key ≠ "groups") :
    List.lookup key (extraSeg kind j) = none := by
  cases kind <;> try rfl
  case artist =>
    apply lookup_eq_none
    intro p hp
    simp only [extraSeg, List.mem_cons, List.not_mem_nil, or_false] at hp
    rcases hp with h | h
    · subst h; exact Ne.symm h1
    · subst h; exact Ne.symm h2

/-- A declared scalar key is never shadowed by any later write, so its
lookup lands in the scalar segment with the verbatim `data.get` value. -/
theorem lookup_assemble_scalar {kind : Kind} {j : Json} {c u : Option DateTime}
    {a t s : Option Entity} {l1 l2 l3 l4 l5 l6 l7 l8 l9 l10 : Option (List Entity)}
    {key : String} (hkey : key ∈ kindKeys kind) :
    List.lookup key (assembleAttrs kind j c u a t s l1 l2 l3 l4 l5 l6 l7 l8 l9 l10) =
      some (AttrVal.json (j.get key)) := by
  have hd := kindKeys_disjoint_special kind key hkey
  simp only [specialKeys, List.mem_cons, List.not_mem_nil, or_false, not_or] at hd
  obtain ⟨n1, n2, n3, n4, n5, n6, n7, n8, n9, n10, n11, n12, n13, n14, n15, n16⟩ := hd
  simp only [assembleAttrs, lookup_append, lookup_extraSeg n1 n2, listPart, singPart,
    tsPart, lookup_optAttr, if_neg n3, if_neg n4, if_neg n5, if_neg n6, if_neg n7,
    if_neg n8, if_neg n9, if_neg n10, if_neg n11, if_neg n12, if_neg n13, if_neg n14,
    if_neg n15, if_neg n16, opt_orElse_none, opt_orElse_some]
  rw [scalarSeg, lookup_map_self _ hkey]

/-- C1: for every resource kind and every JSON object, hydrating and then
reading back each scalar field declared for that kind yields exactly the
value stored under that key in the source object; and on a payload with no
stored scalar keys hydration succeeds with every declared scalar attribute
set to the absent/null value. -/
theorem hydrate_scalar_roundtrip :
    (∀ (kind : Kind) (j : Json) (e : Entity), hydrate kind j = Except.ok e →
      ∀ key ∈ kindKeys kind, e.getAttr key = some (AttrVal.json (j.get key))) ∧
    (∀ kind : Kind, ∃ e, hydrate kind (Json.obj []) = Except.ok e ∧
      ∀ key ∈ kindKeys kind, e.getAttr key = some (AttrVal.json Json.null)) := by
  constructor
  · intro kind j e h key hkey
    obtain ⟨fields, c, u, a, t, s, l1, l2, l3, l4, l5, l6, l7, l8, l9, l10,
      hj, hc, hu, ha, ht, hs, h1, h2, h3, h4, h5, h6, h7, h8, h9, h10, he⟩ :=
      hydrate_ok_destruct h
    subst he
    simp only [Entity.getAttr, Entity.attrs]
    rw [lookup_assemble_scalar hkey]
  · intro kind
    refine ⟨Entity.mk kind (Json.obj [])
      (assembleAttrs kind (Json.obj []) none none none none none none none none
        none none none none none none none), ?_, ?_⟩
    · simp [hydrate, hydrateTimestamp, singularRel, listRel, Json.get, Json.getD,
        Json.lookup, Json.truthy, List.lookup, except_bind_ok, except_pure]
    · intro key hkey
      simp only [Entity.getAttr, Entity.attrs]
      rw [lookup_assemble_scalar hkey]
      simp [Json.get, Json.getD, Json.lookup, List.lookup]

/-- Witness for C1 at a concrete payload: a `Song` hydrated from
`{"title": "X", "id": 7}` reads back both scalars verbatim. -/
theorem hydrate_scalar_roundtrip_witness :
    hydrate .song (Json.obj [("title", Json.str ("X")), ("id", Json.num 7)]) =
      Except.ok (Entity.mk .song (Json.obj [("title", Json.str ("X")), ("id", Json.num 7)])
        (assembleAttrs .song (Json.obj [("title", Json.str ("X")), ("id", Json.num 7)])
          none none none none none none none none none none none none none none none)) ∧
    Entity.getAttr (Entity.mk .song (Json.obj [("title", Json.str ("X")), ("id", Json.num 7)])
        (assembleAttrs .song (Json.obj [("title", Json.str ("X")), ("id", Json.num 7)])
          none none none none none none none none none none none none none none none))
      ("title") =
      some (AttrVal.json (Json.get (Json.obj [("title", Json.str ("X")), ("id", Json.num 7)])
        ("title"))) := by
  have h : hydrate .song (Json.obj [("title", Json.str ("X")), ("id", Json.num 7)]) =
      Except.ok (Entity.mk .song (Json.obj [("title", Json.str ("X")), ("id", Json.num 7)])
        (assembleAttrs .song (Json.obj [("title", Json.str ("X")), ("id", Json.num 7)])
          none none none none none none none none none none none none none none none)) := by
    simp [hydrate, hydrateTimestamp, singularRel, listRel, Json.get, Json.getD,
      Json.lookup, Json.truthy, List.lookup, except_bind_ok, except_pure]
  exact ⟨h, hydrate_scalar_roundtrip.1 .song _ _ h ("title") (by decide)⟩

theorem opt_orElse_none_right {β : Type} (x : Option β) :
    (x.orElse fun _ => (none : Option β)) = x := by
  cases x <;> rfl

theorem not_mem_kindKeys_special :
    ∀ kind : Kind, ∀ key ∈ specialKeys, key ∉ kindKeys kind := by
  intro kind
  cases kind <;> decide

theorem lookup_scalarSeg_none {kind : Kind} {j : Json} {key : String}
    (h : key ∉ kindKeys kind) : List.lookup key (scalarSeg kind j) = none := by
  apply lookup_eq_none
  intro p hp
  obtain ⟨k, hk, rfl⟩ := List.mem_map.mp hp
  intro hkey
  exact h (hkey ▸ hk)

theorem lookup_assemble_songs {kind : Kind} {j : Json} {c u : Option DateTime}
    {a t s : Option Entity} {l1 l2 l3 l4 l5 l6 l7 l8 l9 l10 : Option (List Entity)} :
    List.lookup ("songs") (assembleAttrs kind j c u a t s l1 l2 l3 l4 l5 l6 l7 l8 l9 l10) =
      Option.map AttrVal.entList l1 := by
  have hsc : List.lookup ("songs") (scalarSeg kind j) = none :=
    lookup_scalarSeg_none (not_mem_kindKeys_special kind _ (by decide))
  have hex : List.lookup ("songs") (extraSeg kind j) = none :=
    lookup_extraSeg (by decide) (by decide)
  simp [assembleAttrs, listPart, singPart, tsPart, lookup_append, lookup_optAttr,
    hsc, hex, opt_orElse_none, opt_orElse_some, opt_orElse_none_right]

theorem lookup_assemble_themes {kind : Kind} {j : Json} {c u : Option DateTime}
    {a t s : Option Entity} {l1 l2 l3 l4 l5 l6 l7 l8 l9 l10 : Option (List Entity)} :
    List.lookup ("themes") (assembleAttrs kind j c u a t s l1 l2 l3 l4 l5 l6 l7 l8 l9 l10) =
      Option.map AttrVal.entList l3 := by
  have hsc : List.lookup ("themes") (scalarSeg kind j) = none :=
    lookup_scalarSeg_none (not_mem_kindKeys_special kind _ (by decide))
  have hex : List.lookup ("themes") (extraSeg kind j) = none :=
    lookup_extraSeg (by decide) (by decide)
  simp [assembleAttrs, listPart, singPart, tsPart, lookup_append, lookup_optAttr,
    hsc, hex, opt_orElse_none, opt_orElse_some, opt_orElse_none_right]

theorem lookup_assemble_videos {kind : Kind} {j : Json} {c u : Option DateTime}
    {a t s : Option Entity} {l1 l2 l3 l4 l5 l6 l7 l8 l9 l10 : Option (List Entity)} :
    List.lookup ("videos") (assembleAttrs kind j c u a t s l1 l2 l3 l4 l5 l6 l7 l8 l9 l10) =
      Option.map AttrVal.entList l4 := by
  have hsc : List.lookup ("videos") (scalarSeg kind j) = none :=
    lookup_scalarSeg_none (not_mem_kindKeys_special kind _ (by decide))
  have hex : List.lookup ("videos") (extraSeg kind j) = none :=
    lookup_extraSeg (by decide) (by decide)
  simp [assembleAttrs, listPart, singPart, tsPart, lookup_append, lookup_optAttr,
    hsc, hex, opt_orElse_none, opt_orElse_some, opt_orElse_none_right]

theorem lookup_assemble_series {kind : Kind} {j : Json} {c u : Option DateTime}
    {a t s : Option Entity} {l1 l2 l3 l4 l5 l6 l7 l8 l9 l10 : Option (List Entity)} :
    List.lookup ("series") (assembleAttrs kind j c u a t s l1 l2 l3 l4 l5 l6 l7 l8 l9 l10) =
      Option.map AttrVal.entList l5 := by
  have hsc : List.lookup ("series") (scalarSeg kind j) = none :=
    lookup_scalarSeg_none (not_mem_kindKeys_special kind _ (by decide))
  have hex : List.lookup ("series") (extraSeg kind j) = none :=
    lookup_extraSeg (by decide) (by decide)
  simp [assembleAttrs, listPart, singPart, tsPart, lookup_append, lookup_optAttr,
    hsc, hex, opt_orElse_none, opt_orElse_some, opt_orElse_none_right]

theorem lookup_assemble_entries {kind : Kind} {j : Json} {c u : Option DateTime}
    {a t s : Option Entity} {l1 l2 l3 l4 l5 l6 l7 l8 l9 l10 : Option (List Entity)} :
    List.lookup ("entries") (assembleAttrs kind j c u a t s l1 l2 l3 l4 l5 l6 l7 l8 l9 l10) =
      Option.map AttrVal.entList l6 := by
  have hsc : List.lookup ("entries") (scalarSeg kind j) = none :=
    lookup_scalarSeg_none (not_mem_kindKeys_special kind _ (by decide))
  have hex : List.lookup ("entries") (extraSeg kind j) = none :=
    lookup_extraSeg (by decide) (by decide)
  simp [assembleAttrs, listPart, singPart, tsPart, lookup_append, lookup_optAttr,
    hsc, hex, opt_orElse_none, opt_orElse_some, opt_orElse_none_right]

theorem lookup_assemble_artists {kind : Kind} {j : Json} {c u : Option DateTime}
    {a t s : Option Entity} {l1 l2 l3 l4 l5 l6 l7 l8 l9 l10 : Option (List Entity)} :
    List.lookup ("artists") (assembleAttrs kind j c u a t s l1 l2 l3 l4 l5 l6 l7 l8 l9 l10) =
      Option.map AttrVal.entList l7 := by
  have hsc : List.lookup ("artists") (scalarSeg kind j) = none :=
    lookup_scalarSeg_none (not_mem_kindKeys_special kind _ (by decide))
  have hex : List.lookup ("artists") (extraSeg kind j) = none :=
    lookup_extraSeg (by decide) (by decide)
  simp [assembleAttrs, listPart, singPart, tsPart, lookup_append, lookup_optAttr,
    hsc, hex, opt_orElse_none, opt_orElse_some, opt_orElse_none_right]

theorem lookup_assemble_synonyms {kind : Kind} {j : Json} {c u : Option DateTime}
    {a t s : Option Entity} {l1 l2 l3 l4 l5 l6 l7 l8 l9 l10 : Option (List Entity)} :
    List.lookup ("synonyms") (assembleAttrs kind j c u a t s l1 l2 l3 l4 l5 l6 l7 l8 l9 l10) =
      Option.map AttrVal.entList l8 := by
  have hsc : List.lookup ("synonyms") (scalarSeg kind j) = none :=
    lookup_scalarSeg_none (not_mem_kindKeys_special kind _ (by decide))
  have hex : List.lookup ("synonyms") (extraSeg kind j) = none :=
    lookup_extraSeg (by decide) (by decide)
  simp [assembleAttrs, listPart, singPart, tsPart, lookup_append, lookup_optAttr,
    hsc, hex, opt_orElse_none, opt_orElse_some, opt_orElse_none_right]

theorem lookup_assemble_resources {kind : Kind} {j : Json} {c u : Option DateTime}
    {a t s : Option Entity} {l1 l2 l3 l4 l5 l6 l7 l8 l9 l10 : Option (List Entity)} :
    List.lookup ("resources") (assembleAttrs kind j c u a t s l1 l2 l3 l4 l5 l6 l7 l8 l9 l10) =
      Option.map AttrVal.entList l9 := by
  have hsc : List.lookup ("resources") (scalarSeg kind j) = none :=
    lookup_scalarSeg_none (not_mem_kindKeys_special kind _ (by decide))
  have hex : List.lookup ("resources") (extraSeg kind j) = none :=
    lookup_extraSeg (by decide) (by decide)
  simp [assembleAttrs, listPart, singPart, tsPart, lookup_append, lookup_optAttr,
    hsc, hex, opt_orElse_none, opt_orElse_some, opt_orElse_none_right]

theorem lookup_assemble_announcements {kind : Kind} {j : Json} {c u : Option DateTime}
    {a t s : Option Entity} {l1 l2 l3 l4 l5 l6 l7 l8 l9 l10 : Option (List Entity)} :
    List.lookup ("announcements") (assembleAttrs kind j c u a t s l1 l2 l3 l4 l5 l6 l7 l8 l9 l10) =
      Option.map AttrVal.entList l10 := by
  have hsc : List.lookup ("announcements") (scalarSeg kind j) = none :=
    lookup_scalarSeg_none (not_mem_kindKeys_special kind _ (by decide))
  have hex : List.lookup ("announcements") (extraSeg kind j) = none :=
    lookup_extraSeg (by decide) (by decide)
  simp [assembleAttrs, listPart, singPart, tsPart, lookup_append, lookup_optAttr,
    hsc, hex, opt_orElse_none, opt_orElse_some, opt_orElse_none_right]

theorem lookup_assemble_anime {kind : Kind} {j : Json} {c u : Option DateTime}
    {a t s : Option Entity} {l1 l2 l3 l4 l5 l6 l7 l8 l9 l10 : Option (List Entity)} :
    List.lookup ("anime") (assembleAttrs kind j c u a t s l1 l2 l3 l4 l5 l6 l7 l8 l9 l10) =
      ((Option.map AttrVal.entList l2).orElse fun _ => Option.map AttrVal.ent a) := by
  have hsc : List.lookup ("anime") (scalarSeg kind j) = none :=
    lookup_scalarSeg_none (not_mem_kindKeys_special kind _ (by decide))
  have hex : List.lookup ("anime") (extraSeg kind j) = none :=
    lookup_extraSeg (by decide) (by decide)
  simp [assembleAttrs, listPart, singPart, tsPart, lookup_append, lookup_optAttr,
    hsc, hex, opt_orElse_none, opt_orElse_some, opt_orElse_none_right]

theorem lookup_assemble_theme {kind : Kind} {j : Json} {c u : Option DateTime}
    {a t s : Option Entity} {l1 l2 l3 l4 l5 l6 l7 l8 l9 l10 : Option (List Entity)} :
    List.lookup ("theme") (assembleAttrs kind j c u a t s l1 l2 l3 l4 l5 l6 l7 l8 l9 l10) =
      Option.map AttrVal.ent t := by
  have hsc : List.lookup ("theme") (scalarSeg kind j) = none :=
    lookup_scalarSeg_none (not_mem_kindKeys_special kind _ (by decide))
  have hex : List.lookup ("theme") (extraSeg kind j) = none :=
    lookup_extraSeg (by decide) (by decide)
  simp [assembleAttrs, listPart, singPart, tsPart, lookup_append, lookup_optAttr,
    hsc, hex, opt_orElse_none, opt_orElse_some, opt_orElse_none_right]

theorem lookup_assemble_song {kind : Kind} {j : Json} {c u : Option DateTime}
    {a t s : Option Entity} {l1 l2 l3 l4 l5 l6 l7 l8 l9 l10 : Option (List Entity)} :
    List.lookup ("song") (assembleAttrs kind j c u a t s l1 l2 l3 l4 l5 l6 l7 l8 l9 l10) =
      Option.map AttrVal.ent s := by
  have hsc : List.lookup ("song") (scalarSeg kind j) = none :=
    lookup_scalarSeg_none (not_mem_kindKeys_special kind _ (by decide))
  have hex : List.lookup ("song") (extraSeg kind j) = none :=
    lookup_extraSeg (by decide) (by decide)
  simp [assembleAttrs, listPart, singPart, tsPart, lookup_append, lookup_optAttr,
    hsc, hex, opt_orElse_none, opt_orElse_some, opt_orElse_none_right]

theorem lookup_assemble_created {kind : Kind} {j : Json} {c u : Option DateTime}
    {a t s : Option Entity} {l1 l2 l3 l4 l5 l6 l7 l8 l9 l10 : Option (List Entity)} :
    List.lookup ("created_at") (assembleAttrs kind j c u a t s l1 l2 l3 l4 l5 l6 l7 l8 l9 l10) =
      Option.map AttrVal.date c := by
  have hsc : List.lookup ("created_at") (scalarSeg kind j) = none :=
    lookup_scalarSeg_none (not_mem_kindKeys_special kind _ (by decide))
  have hex : List.lookup ("created_at") (extraSeg kind j) = none :=
    lookup_extraSeg (by decide) (by decide)
  simp [assembleAttrs, listPart, singPart, tsPart, lookup_append, lookup_optAttr,
    hsc, hex, opt_orElse_none, opt_orElse_some, opt_orElse_none_right]

theorem lookup_assemble_updated {kind : Kind} {j : Json} {c u : Option DateTime}
    {a t s : Option Entity} {l1 l2 l3 l4 l5 l6 l7 l8 l9 l10 : Option (List Entity)} :
    List.lookup ("updated_at") (assembleAttrs kind j c u a t s l1 l2 l3 l4 l5 l6 l7 l8 l9 l10) =
      Option.map AttrVal.date u := by
  have hsc : List.lookup ("updated_at") (scalarSeg kind j) = none :=
    lookup_scalarSeg_none (not_mem_kindKeys_special kind _ (by decide))
  have hex : List.lookup ("updated_at") (extraSeg kind j) = none :=
    lookup_extraSeg (by decide) (by decide)
  simp [assembleAttrs, listPart, singPart, tsPart, lookup_append, lookup_optAttr,
    hsc, hex, opt_orElse_none, opt_orElse_some, opt_orElse_none_right]

theorem singularRel_obj {j : Json} {key : String} {kind : Kind} {kvs : List (String × Json)}
    (h : j.get key = Json.obj kvs) :
    singularRel j key kind = (hydrate kind (Json.obj kvs)).map some := by
  simp only [singularRel]
  split
  · rename_i kvs2 heq
    rw [h] at heq
    cases heq
    rfl
  · rename_i hne
    exact (hne kvs h).elim

theorem singularRel_not_obj {j : Json} {key : String} {kind : Kind}
    (h : ∀ kvs, j.get key ≠ Json.obj kvs) : singularRel j key kind = .ok none := by
  rcases hv : j.get key with _ | b | n | s | elems | kvs <;> simp [singularRel, hv]

theorem listRel_arr {j : Json} {key : String} {kind : Kind} {xs : List Json}
    (h : j.get key = Json.arr xs) :
    listRel j key kind = (hydrateList kind xs).map some := by
  simp only [listRel]
  split
  · rename_i xs2 heq
    rw [h] at heq
    cases heq
    rfl
  · rename_i hne
    exact (hne xs h).elim

theorem listRel_not_arr {j : Json} {key : String} {kind : Kind}
    (h : ∀ xs, j.get key ≠ Json.arr xs) : listRel j key kind = .ok none := by
  rcases hv : j.get key with _ | b | n | s | elems | kvs <;> simp [listRel, hv]

theorem hydrateTimestamp_null {j : Json} {key : String} (h : j.get key = Json.null) :
    hydrateTimestamp j key = .ok none := by
  simp [hydrateTimestamp, h, Json.truthy]

/-- Hydrating a relation array succeeds exactly as an elementwise map:
same length, and the `i`-th entity is the hydration of the `i`-th element. -/
theorem hydrateList_ok {kind : Kind} {xs : List Json} {es : List Entity}
    (h : hydrateList kind xs = Except.ok es) :
    es.length = xs.length ∧
      ∀ i (h1 : i < xs.length) (h2 : i < es.length),
        hydrate kind (xs.get ⟨i, h1⟩) = Except.ok (es.get ⟨i, h2⟩) := by
  induction xs generalizing es with
  | nil =>
      simp only [hydrateList] at h
      cases h
      exact ⟨rfl, fun i h1 h2 => absurd h1 (by simp)⟩
  | cons x rest ih =>
      simp only [hydrateList, except_bind_eq_ok, except_pure, Except.ok.injEq] at h
      obtain ⟨e, he, es2, hes2, heq⟩ := h
      subst heq
      obtain ⟨hlen, helem⟩ := ih hes2
      refine ⟨by simp [hlen], ?_⟩
      intro i h1 h2
      cases i with
      | zero => exact he
      | succ n =>
          exact helem n (by simpa using h1) (by simpa using h2)

/-- Table of the known relation list keys and the kind each hydrates. -/
def listRelTable : List (String × Kind) :=
  [("songs", .song), ("anime", .anime), ("themes", .theme), ("videos", .video),
   ("series", .series), ("entries", .entry), ("artists", .artist),
   ("synonyms", .synonym), ("resources", .resource), ("announcements", .announcement)]

/-- C4: a known relation list key holding an array hydrates to an ordered
sequence of entities of the corresponding kind, of the same length and in
the same order; a missing relation key leaves the attribute entirely
absent; and a payload touching none of the hydrator's relation or
timestamp keys hydrates without error, with every relation attribute
absent. -/
theorem hydrate_list_relations :
    (∀ (kind : Kind) (j : Json) (e : Entity) (key : String) (k2 : Kind),
      (key, k2) ∈ listRelTable → hydrate kind j = Except.ok e →
      ∀ xs, j.get key = Json.arr xs →
      ∃ es, e.getAttr key = some (AttrVal.entList es) ∧ es.length = xs.length ∧
        ∀ i (hi : i < xs.length) (hi2 : i < es.length),
          hydrate k2 (xs.get ⟨i, hi⟩) = Except.ok (es.get ⟨i, hi2⟩)) ∧
    (∀ (kind : Kind) (j : Json) (e : Entity) (key : String) (k2 : Kind),
      (key, k2) ∈ listRelTable → hydrate kind j = Except.ok e →
      j.lookup key = none → e.getAttr key = none) ∧
    (∀ (kind : Kind) (fields : List (String × Json)),
      (∀ p ∈ fields, p.1 ∉ specialKeys) →
      ∃ e, hydrate kind (Json.obj fields) = Except.ok e ∧
        ∀ p ∈ listRelTable, e.getAttr p.1 = none) := by
  refine ⟨?_, ?_, ?_⟩
  · intro kind j e key k2 hmem h xs hxs
    obtain ⟨fields, c, u, a, t, s, l1, l2, l3, l4, l5, l6, l7, l8, l9, l10,
      hj, hc, hu, ha, ht, hsg, h1, h2, h3, h4, h5, h6, h7, h8, h9, h10, he⟩ :=
      hydrate_ok_destruct h
    subst he
    simp only [listRelTable, List.mem_cons, List.not_mem_nil, or_false] at hmem
    rcases hmem with hp | hp | hp | hp | hp | hp | hp | hp | hp | hp <;>
      (injection hp with hk1 hk2; subst hk1; subst hk2)
    · rw [listRel_arr hxs] at h1
      obtain ⟨es, hes, hsome⟩ := except_map_eq_ok.mp h1
      obtain ⟨hlen, helem⟩ := hydrateList_ok hes
      refine ⟨es, ?_, hlen, helem⟩
      simp only [Entity.getAttr, Entity.attrs, lookup_assemble_songs, ← hsome, Option.map_some',
        opt_orElse_some]
    · rw [listRel_arr hxs] at h2
      obtain ⟨es, hes, hsome⟩ := except_map_eq_ok.mp h2
      obtain ⟨hlen, helem⟩ := hydrateList_ok hes
      refine ⟨es, ?_, hlen, helem⟩
      simp only [Entity.getAttr, Entity.attrs, lookup_assemble_anime, ← hsome, Option.map_some',
        opt_orElse_some]
    · rw [listRel_arr hxs] at h3
      obtain ⟨es, hes, hsome⟩ := except_map_eq_ok.mp h3
      obtain ⟨hlen, helem⟩ := hydrateList_ok hes
      refine ⟨es, ?_, hlen, helem⟩
      simp only [Entity.getAttr, Entity.attrs, lookup_assemble_themes, ← hsome, Option.map_some',
        opt_orElse_some]
    · rw [listRel_arr hxs] at h4
      obtain ⟨es, hes, hsome⟩ := except_map_eq_ok.mp h4
      obtain ⟨hlen, helem⟩ := hydrateList_ok hes
      refine ⟨es, ?_, hlen, helem⟩
      simp only [Entity.getAttr, Entity.attrs, lookup_assemble_videos, ← hsome, Option.map_some',
        opt_orElse_some]
    · rw [listRel_arr hxs] at h5
      obtain ⟨es, hes, hsome⟩ := except_map_eq_ok.mp h5
      obtain ⟨hlen, helem⟩ := hydrateList_ok hes
      refine ⟨es, ?_, hlen, helem⟩
      simp only [Entity.getAttr, Entity.attrs, lookup_assemble_series, ← hsome, Option.map_some',
        opt_orElse_some]
    · rw [listRel_arr hxs] at h6
      obtain ⟨es, hes, hsome⟩ := except_map_eq_ok.mp h6
      obtain ⟨hlen, helem⟩ := hydrateList_ok hes
      refine ⟨es, ?_, hlen, helem⟩
      simp only [Entity.getAttr, Entity.attrs, lookup_assemble_entries, ← hsome, Option.map_some',
        opt_orElse_some]
    · rw [listRel_arr hxs] at h7
      obtain ⟨es, hes, hsome⟩ := except_map_eq_ok.mp h7
      obtain ⟨hlen, helem⟩ := hydrateList_ok hes
      refine ⟨es, ?_, hlen, helem⟩
      simp only [Entity.getAttr, Entity.attrs, lookup_assemble_artists, ← hsome, Option.map_some',
        opt_orElse_some]
    · rw [listRel_arr hxs] at h8
      obtain ⟨es, hes, hsome⟩ := except_map_eq_ok.mp h8
      obtain ⟨hlen, helem⟩ := hydrateList_ok hes
      refine ⟨es, ?_, hlen, helem⟩
      simp only [Entity.getAttr, Entity.attrs, lookup_assemble_synonyms, ← hsome, Option.map_some',
        opt_orElse_some]
    · rw [listRel_arr hxs] at h9
      obtain ⟨es, hes, hsome⟩ := except_map_eq_ok.mp h9
      obtain ⟨hlen, helem⟩ := hydrateList_ok hes
      refine ⟨es, ?_, hlen, helem⟩
      simp only [Entity.getAttr, Entity.attrs, lookup_assemble_resources, ← hsome, Option.map_some',
        opt_orElse_some]
    · rw [listRel_arr hxs] at h10
      obtain ⟨es, hes, hsome⟩ := except_map_eq_ok.mp h10
      obtain ⟨hlen, helem⟩ := hydrateList_ok hes
      refine ⟨es, ?_, hlen, helem⟩
      simp only [Entity.getAttr, Entity.attrs, lookup_assemble_announcements, ← hsome, Option.map_some',
        opt_orElse_some]
  · intro kind j e key k2 hmem h hlk
    obtain ⟨fields, c, u, a, t, s, l1, l2, l3, l4, l5, l6, l7, l8, l9, l10,
      hj, hc, hu, ha, ht, hsg, h1, h2, h3, h4, h5, h6, h7, h8, h9, h10, he⟩ :=
      hydrate_ok_destruct h
    subst he
    have hget : j.get key = Json.null := by rw [Json.get, Json.getD, hlk]; rfl
    simp only [listRelTable, List.mem_cons, List.not_mem_nil, or_false] at hmem
    rcases hmem with hp | hp | hp | hp | hp | hp | hp | hp | hp | hp <;>
      (injection hp with hk1 hk2; subst hk1; subst hk2)
    · rw [listRel_not_arr (fun ys hx => Json.noConfusion (hget.symm.trans hx))] at h1
      cases h1
      simp only [Entity.getAttr, Entity.attrs, lookup_assemble_songs, Option.map_none', opt_orElse_none]
    · rw [listRel_not_arr (fun ys hx => Json.noConfusion (hget.symm.trans hx))] at h2
      cases h2
      rw [singularRel_not_obj (fun kvs hx => Json.noConfusion (hget.symm.trans hx))] at ha
      cases ha
      simp only [Entity.getAttr, Entity.attrs, lookup_assemble_anime, Option.map_none', opt_orElse_none]
    · rw [listRel_not_arr (fun ys hx => Json.noConfusion (hget.symm.trans hx))] at h3
      cases h3
      simp only [Entity.getAttr, Entity.attrs, lookup_assemble_themes, Option.map_none', opt_orElse_none]
    · rw [listRel_not_arr (fun ys hx => Json.noConfusion (hget.symm.trans hx))] at h4
      cases h4
      simp only [Entity.getAttr, Entity.attrs, lookup_assemble_videos, Option.map_none', opt_orElse_none]
    · rw [listRel_not_arr (fun ys hx => Json.noConfusion (hget.symm.trans hx))] at h5
      cases h5
      simp only [Entity.getAttr, Entity.attrs, lookup_assemble_series, Option.map_none', opt_orElse_none]
    · rw [listRel_not_arr (fun ys hx => Json.noConfusion (hget.symm.trans hx))] at h6
      cases h6
      simp only [Entity.getAttr, Entity.attrs, lookup_assemble_entries, Option.map_none', opt_orElse_none]
    · rw [listRel_not_arr (fun ys hx => Json.noConfusion (hget.symm.trans hx))] at h7
      cases h7
      simp only [Entity.getAttr, Entity.attrs, lookup_assemble_artists, Option.map_none', opt_orElse_none]
    · rw [listRel_not_arr (fun ys hx => Json.noConfusion (hget.symm.trans hx))] at h8
      cases h8
      simp only [Entity.getAttr, Entity.attrs, lookup_assemble_synonyms, Option.map_none', opt_orElse_none]
    · rw [listRel_not_arr (fun ys hx => Json.noConfusion (hget.symm.trans hx))] at h9
      cases h9
      simp only [Entity.getAttr, Entity.attrs, lookup_assemble_resources, Option.map_none', opt_orElse_none]
    · rw [listRel_not_arr (fun ys hx => Json.noConfusion (hget.symm.trans hx))] at h10
      cases h10
      simp only [Entity.getAttr, Entity.attrs, lookup_assemble_announcements, Option.map_none', opt_orElse_none]
  · intro kind fields hfields
    have hget : ∀ key ∈ specialKeys, Json.get (Json.obj fields) key = Json.null := by
      intro key hk
      have hlk : Json.lookup (Json.obj fields) key = none :=
        lookup_eq_none (fun p hp hpk => (hfields p hp) (hpk ▸ hk))
      rw [Json.get, Json.getD, hlk]
      rfl
    have hnobj : ∀ key ∈ specialKeys, ∀ k2 : Kind,
        singularRel (Json.obj fields) key k2 = .ok none := fun key hk k2 =>
      singularRel_not_obj (fun kvs hx => Json.noConfusion ((hget key hk).symm.trans hx))
    have hnarr : ∀ key ∈ specialKeys, ∀ k2 : Kind,
        listRel (Json.obj fields) key k2 = .ok none := fun key hk k2 =>
      listRel_not_arr (fun ys hx => Json.noConfusion ((hget key hk).symm.trans hx))
    refine ⟨Entity.mk kind (Json.obj fields)
      (assembleAttrs kind (Json.obj fields) none none none none none none none none
        none none none none none none none), ?_, ?_⟩
    · simp only [hydrate,
        hydrateTimestamp_null (hget ("created_at") (by decide)),
        hydrateTimestamp_null (hget ("updated_at") (by decide)),
        hnobj ("anime") (by decide) Kind.anime,
        hnobj ("theme") (by decide) Kind.theme,
        hnobj ("song") (by decide) Kind.song,
        hnarr ("songs") (by decide) Kind.song,
        hnarr ("anime") (by decide) Kind.anime,
        hnarr ("themes") (by decide) Kind.theme,
        hnarr ("videos") (by decide) Kind.video,
        hnarr ("series") (by decide) Kind.series,
        hnarr ("entries") (by decide) Kind.entry,
        hnarr ("artists") (by decide) Kind.artist,
        hnarr ("synonyms") (by decide) Kind.synonym,
        hnarr ("resources") (by decide) Kind.resource,
        hnarr ("announcements") (by decide) Kind.announcement,
        except_bind_ok, except_pure]
    · intro p hp
      fin_cases hp <;>
        simp [Entity.getAttr, Entity.attrs, lookup_assemble_songs,
          lookup_assemble_anime, lookup_assemble_themes, lookup_assemble_videos,
          lookup_assemble_series, lookup_assemble_entries, lookup_assemble_artists,
          lookup_assemble_synonyms, lookup_assemble_resources,
          lookup_assemble_announcements, opt_orElse_none]

theorem hydrate_kind {kind : Kind} {j : Json} {e : Entity}
    (h : hydrate kind j = Except.ok e) : e.kind = kind := by
  obtain ⟨fields, c, u, a, t, s, l1, l2, l3, l4, l5, l6, l7, l8, l9, l10,
    hj, hc, hu, ha, ht, hsg, h1, h2, h3, h4, h5, h6, h7, h8, h9, h10, he⟩ :=
    hydrate_ok_destruct h
  subst he
  rfl

/-- Witness for C4 at a concrete payload: hydrating an `Anime` from
`{"themes": [{}]}` attaches a one-element list of hydrated themes. -/
theorem hydrate_list_relations_witness :
    hydrate .anime (Json.obj [("themes", Json.arr [Json.obj []])]) =
      Except.ok (Entity.mk .anime (Json.obj [("themes", Json.arr [Json.obj []])])
        (assembleAttrs .anime (Json.obj [("themes", Json.arr [Json.obj []])])
          none none none none none none none
          (some [Entity.mk .theme (Json.obj [])
            (assembleAttrs .theme (Json.obj []) none none none none none none none
              none none none none none none none none)])
          none none none none none none none)) ∧
    ∃ es,
      Entity.getAttr (Entity.mk .anime (Json.obj [("themes", Json.arr [Json.obj []])])
        (assembleAttrs .anime (Json.obj [("themes", Json.arr [Json.obj []])])
          none none none none none none none
          (some [Entity.mk .theme (Json.obj [])
            (assembleAttrs .theme (Json.obj []) none none none none none none none
              none none none none none none none none)])
          none none none none none none none)) ("themes") =
        some (AttrVal.entList es) ∧
      es.length = [Json.obj []].length ∧
      ∀ i (hi : i < [Json.obj []].length) (hi2 : i < es.length),
        hydrate Kind.theme ([Json.obj []].get ⟨i, hi⟩) = Except.ok (es.get ⟨i, hi2⟩) := by
  have hh : hydrate .anime (Json.obj [("themes", Json.arr [Json.obj []])]) =
      Except.ok (Entity.mk .anime (Json.obj [("themes", Json.arr [Json.obj []])])
        (assembleAttrs .anime (Json.obj [("themes", Json.arr [Json.obj []])])
          none none none none none none none
          (some [Entity.mk .theme (Json.obj [])
            (assembleAttrs .theme (Json.obj []) none none none none none none none
              none none none none none none none none)])
          none none none none none none none)) := by
    simp [hydrate, hydrateList, hydrateTimestamp, singularRel, listRel, Json.get,
      Json.getD, Json.lookup, Json.truthy, List.lookup, except_bind_ok, except_pure,
      except_map_ok]
  exact ⟨hh, hydrate_list_relations.1 .anime _ _ ("themes") Kind.theme (by decide) hh
    [Json.obj []] rfl⟩

/-- C8: hydration is a pure projection of the source JSON.  Every operation
the constructor performs on the payload is a read (`dict.get`,
`isinstance`, iteration); the entity retains the source object itself,
unchanged, as `_data`, at every level of the entity graph. -/
theorem hydrate_preserves_source :
    ∀ (kind : Kind) (j : Json) (e : Entity),
      hydrate kind j = Except.ok e → e.rawData = j := by
  intro kind j e h
  obtain ⟨fields, c, u, a, t, s, l1, l2, l3, l4, l5, l6, l7, l8, l9, l10,
    hj, hc, hu, ha, ht, hsg, h1, h2, h3, h4, h5, h6, h7, h8, h9, h10, he⟩ :=
    hydrate_ok_destruct h
  subst he
  rfl

/-- Witness for C8 at a concrete payload. -/
theorem hydrate_preserves_source_witness :
    hydrate .song (Json.obj [("title", Json.str ("Y"))]) =
      Except.ok (Entity.mk .song (Json.obj [("title", Json.str ("Y"))])
        (assembleAttrs .song (Json.obj [("title", Json.str ("Y"))]) none none none
          none none none none none none none none none none none none)) ∧
    Entity.rawData (Entity.mk .song (Json.obj [("title", Json.str ("Y"))])
        (assembleAttrs .song (Json.obj [("title", Json.str ("Y"))]) none none none
          none none none none none none none none none none none none)) =
      Json.obj [("title", Json.str ("Y"))] := by
  have hh : hydrate .song (Json.obj [("title", Json.str ("Y"))]) =
      Except.ok (Entity.mk .song (Json.obj [("title", Json.str ("Y"))])
        (assembleAttrs .song (Json.obj [("title", Json.str ("Y"))]) none none none
          none none none none none none none none none none none none)) := by
    simp [hydrate, hydrateTimestamp, singularRel, listRel, Json.get, Json.getD,
      Json.lookup, Json.truthy, List.lookup, except_bind_ok, except_pure]
  exact ⟨hh, hydrate_preserves_source .song _ _ hh⟩

/-- C10: the attribute named `anime` is shape-polymorphic: a payload whose
`anime` key holds an object attaches a single hydrated `Anime` entity under
that name, and a payload whose `anime` key holds an array attaches a list
of `Anime` entities under the very same attribute name. -/
theorem anime_attr_shape_polymorphic :
    ∀ (kind : Kind) (j : Json) (e : Entity), hydrate kind j = Except.ok e →
      (∀ kvs, j.get ("anime") = Json.obj kvs →
        ∃ ea, e.getAttr ("anime") = some (AttrVal.ent ea) ∧ ea.kind = Kind.anime ∧
          hydrate Kind.anime (Json.obj kvs) = Except.ok ea) ∧
      (∀ xs, j.get ("anime") = Json.arr xs →
        ∃ es, e.getAttr ("anime") = some (AttrVal.entList es) ∧
          (∀ e2 ∈ es, e2.kind = Kind.anime) ∧ es.length = xs.length) := by
  intro kind j e h
  obtain ⟨fields, c, u, a, t, s, l1, l2, l3, l4, l5, l6, l7, l8, l9, l10,
    hj, hc, hu, ha, ht, hsg, h1, h2, h3, h4, h5, h6, h7, h8, h9, h10, he⟩ :=
    hydrate_ok_destruct h
  subst he
  constructor
  · intro kvs hobj
    rw [singularRel_obj hobj] at ha
    obtain ⟨ea, hea, hsome⟩ := except_map_eq_ok.mp ha
    rw [listRel_not_arr (fun ys hx => Json.noConfusion (hobj.symm.trans hx))] at h2
    cases h2
    refine ⟨ea, ?_, hydrate_kind hea, hea⟩
    simp only [Entity.getAttr, Entity.attrs, lookup_assemble_anime, ← hsome,
      Option.map_some', Option.map_none', opt_orElse_none]
  · intro xs harr
    rw [listRel_arr harr] at h2
    obtain ⟨es, hes, hsome⟩ := except_map_eq_ok.mp h2
    obtain ⟨hlen, helem⟩ := hydrateList_ok hes
    refine ⟨es, ?_, ?_, hlen⟩
    · simp only [Entity.getAttr, Entity.attrs, lookup_assemble_anime, ← hsome,
        Option.map_some', opt_orElse_some]
    · intro e2 he2
      obtain ⟨i, hi⟩ := List.mem_iff_get.mp he2
      have := helem i (by omega) i.isLt
      rw [hi] at this
      exact hydrate_kind this

/-- Witness for C10 at concrete payloads: `{"anime": {}}` yields a single
entity under `anime`, and `{"anime": [{}]}` yields a list under `anime`. -/
theorem anime_attr_shape_polymorphic_witness :
    hydrate .synonym (Json.obj [("anime", Json.obj [])]) =
      Except.ok (Entity.mk .synonym (Json.obj [("anime", Json.obj [])])
        (assembleAttrs .synonym (Json.obj [("anime", Json.obj [])]) none none
          (some (Entity.mk .anime (Json.obj [])
            (assembleAttrs .anime (Json.obj []) none none none none none none none
              none none none none none none none none)))
          none none none none none none none none none none none none)) ∧
    hydrate .synonym (Json.obj [("anime", Json.arr [Json.obj []])]) =
      Except.ok (Entity.mk .synonym (Json.obj [("anime", Json.arr [Json.obj []])])
        (assembleAttrs .synonym (Json.obj [("anime", Json.arr [Json.obj []])]) none none
          none none none none
          (some [Entity.mk .anime (Json.obj [])
            (assembleAttrs .anime (Json.obj []) none none none none none none none
              none none none none none none none none)])
          none none none none none none none none)) ∧
    (∃ ea, Entity.getAttr (Entity.mk .synonym (Json.obj [("anime", Json.obj [])])
        (assembleAttrs .synonym (Json.obj [("anime", Json.obj [])]) none none
          (some (Entity.mk .anime (Json.obj [])
            (assembleAttrs .anime (Json.obj []) none none none none none none none
              none none none none none none none none)))
          none none none none none none none none none none none none)) ("anime") =
        some (AttrVal.ent ea) ∧ ea.kind = Kind.anime ∧
        hydrate Kind.anime (Json.obj []) = Except.ok ea) ∧
    (∃ es, Entity.getAttr (Entity.mk .synonym (Json.obj [("anime", Json.arr [Json.obj []])])
        (assembleAttrs .synonym (Json.obj [("anime", Json.arr [Json.obj []])]) none none
          none none none none
          (some [Entity.mk .anime (Json.obj [])
            (assembleAttrs .anime (Json.obj []) none none none none none none none
              none none none none none none none none)])
          none none none none none none none none)) ("anime") =
        some (AttrVal.entList es) ∧ (∀ e2 ∈ es, e2.kind = Kind.anime) ∧
        es.length = [Json.obj []].length) := by
  have hh1 : hydrate .synonym (Json.obj [("anime", Json.obj [])]) =
      Except.ok (Entity.mk .synonym (Json.obj [("anime", Json.obj [])])
        (assembleAttrs .synonym (Json.obj [("anime", Json.obj [])]) none none
          (some (Entity.mk .anime (Json.obj [])
            (assembleAttrs .anime (Json.obj []) none none none none none none none
              none none none none none none none none)))
          none none none none none none none none none none none none)) := by
    simp [hydrate, hydrateList, hydrateTimestamp, singularRel, listRel, Json.get,
      Json.getD, Json.lookup, Json.truthy, List.lookup, except_bind_ok, except_pure,
      except_map_ok]
  have hh2 : hydrate .synonym (Json.obj [("anime", Json.arr [Json.obj []])]) =
      Except.ok (Entity.mk .synonym (Json.obj [("anime", Json.arr [Json.obj []])])
        (assembleAttrs .synonym (Json.obj [("anime", Json.arr [Json.obj []])]) none none
          none none none none
          (some [Entity.mk .anime (Json.obj [])
            (assembleAttrs .anime (Json.obj []) none none none none none none none
              none none none none none none none none)])
          none none none none none none none none)) := by
    simp [hydrate, hydrateList, hydrateTimestamp, singularRel, listRel, Json.get,
      Json.getD, Json.lookup, Json.truthy, List.lookup, except_bind_ok, except_pure,
      except_map_ok]
  exact ⟨hh1, hh2,
    (anime_attr_shape_polymorphic .synonym _ _ hh1).1 [] rfl,
    (anime_attr_shape_polymorphic .synonym _ _ hh2).2 [Json.obj []] rfl⟩

/-- A singular relation key holding an object is recursively hydrated as the
related kind and attached under its own attribute name. -/
theorem singular_obj_attached {kind : Kind} {j : Json} {e : Entity}
    (h : hydrate kind j = Except.ok e) :
    (∀ kvs, j.get ("anime") = Json.obj kvs →
      ∃ ea, hydrate Kind.anime (Json.obj kvs) = Except.ok ea ∧
        e.getAttr ("anime") = some (AttrVal.ent ea)) ∧
    (∀ kvs, j.get ("theme") = Json.obj kvs →
      ∃ et, hydrate Kind.theme (Json.obj kvs) = Except.ok et ∧
        e.getAttr ("theme") = some (AttrVal.ent et)) ∧
    (∀ kvs, j.get ("song") = Json.obj kvs →
      ∃ e2, hydrate Kind.song (Json.obj kvs) = Except.ok e2 ∧
        e.getAttr ("song") = some (AttrVal.ent e2)) := by
  obtain ⟨fields, c, u, a, t, s, l1, l2, l3, l4, l5, l6, l7, l8, l9, l10,
    hj, hc, hu, ha, ht, hsg, h1, h2, h3, h4, h5, h6, h7, h8, h9, h10, he⟩ :=
    hydrate_ok_destruct h
  subst he
  refine ⟨?_, ?_, ?_⟩
  · intro kvs hobj
    rw [singularRel_obj hobj] at ha
    obtain ⟨ea, hea, hsome⟩ := except_map_eq_ok.mp ha
    rw [listRel_not_arr (fun ys hx => Json.noConfusion (hobj.symm.trans hx))] at h2
    cases h2
    refine ⟨ea, hea, ?_⟩
    simp only [Entity.getAttr, Entity.attrs, lookup_assemble_anime, ← hsome,
      Option.map_some', Option.map_none', opt_orElse_none]
  · intro kvs hobj
    rw [singularRel_obj hobj] at ht
    obtain ⟨et, het, hsome⟩ := except_map_eq_ok.mp ht
    refine ⟨et, het, ?_⟩
    simp only [Entity.getAttr, Entity.attrs, lookup_assemble_theme, ← hsome,
      Option.map_some']
  · intro kvs hobj
    rw [singularRel_obj hobj] at hsg
    obtain ⟨e2, he2, hsome⟩ := except_map_eq_ok.mp hsg
    refine ⟨e2, he2, ?_⟩
    simp only [Entity.getAttr, Entity.attrs, lookup_assemble_song, ← hsome,
      Option.map_some']

/-- C3 counterexample: hydrating a payload that embeds all three of `anime`,
`theme`, `song` as nested objects retains ALL THREE singular relations, each
under its own attribute name — not just one slot named after the last kind
processed. -/
theorem singular_overwrite_counterexample :
    Except.map (fun e => ((Entity.getAttr e ("anime")).isSome,
        (Entity.getAttr e ("theme")).isSome, (Entity.getAttr e ("song")).isSome))
      (hydrate .entry (Json.obj [("anime", Json.obj []), ("theme", Json.obj []),
        ("song", Json.obj [])])) = Except.ok (true, true, true) := by
  simp [hydrate, hydrateList, hydrateTimestamp, singularRel, listRel, Json.get,
    Json.getD, Json.lookup, Json.truthy, List.lookup, except_bind_ok, except_pure,
    except_map_ok, Entity.getAttr, Entity.attrs, assembleAttrs, listPart, singPart,
    tsPart, scalarSeg, extraSeg, optAttr, kindKeys, lookup_append, lookup_optAttr,
    opt_orElse_none, opt_orElse_some]

/-- C3 amended: when a payload embeds several of `anime`, `theme`, `song` as
singular nested objects, each is hydrated (in the fixed order anime, theme,
song) and attached under its own distinct attribute name; no singular
relation overwrites another, and all are retained. -/
theorem singular_relations_each_retained :
    ∀ (kind : Kind) (j : Json) (e : Entity), hydrate kind j = Except.ok e →
      (∀ kvs, j.get ("anime") = Json.obj kvs →
        ∃ ea, hydrate Kind.anime (Json.obj kvs) = Except.ok ea ∧
          e.getAttr ("anime") = some (AttrVal.ent ea)) ∧
      (∀ kvs, j.get ("theme") = Json.obj kvs →
        ∃ et, hydrate Kind.theme (Json.obj kvs) = Except.ok et ∧
          e.getAttr ("theme") = some (AttrVal.ent et)) ∧
      (∀ kvs, j.get ("song") = Json.obj kvs →
        ∃ e2, hydrate Kind.song (Json.obj kvs) = Except.ok e2 ∧
          e.getAttr ("song") = some (AttrVal.ent e2)) :=
  fun _ _ _ h => singular_obj_attached h

/-- Witness for the amended C3 at the concrete payload embedding all three
singular relations. -/
theorem singular_relations_each_retained_witness :
    hydrate .entry (Json.obj [("anime", Json.obj []), ("theme", Json.obj []), ("song", Json.obj [])]) =
      Except.ok (Entity.mk .entry (Json.obj [("anime", Json.obj []), ("theme", Json.obj []), ("song", Json.obj [])])
    (assembleAttrs .entry (Json.obj [("anime", Json.obj []), ("theme", Json.obj []), ("song", Json.obj [])])
      none none
      (some (Entity.mk .anime (Json.obj [])
      (assembleAttrs .anime (Json.obj []) none none none none none none none none none none none none none none none)))
      (some (Entity.mk .theme (Json.obj [])
      (assembleAttrs .theme (Json.obj []) none none none none none none none none none none none none none none none)))
      (some (Entity.mk .song (Json.obj [])
      (assembleAttrs .song (Json.obj []) none none none none none none none none none none none none none none none)))
      none none none none none none none none none none)) ∧
    (∃ ea, hydrate Kind.anime (Json.obj []) = Except.ok ea ∧
      Entity.getAttr (Entity.mk .entry (Json.obj [("anime", Json.obj []), ("theme", Json.obj []), ("song", Json.obj [])])
    (assembleAttrs .entry (Json.obj [("anime", Json.obj []), ("theme", Json.obj []), ("song", Json.obj [])])
      none none
      (some (Entity.mk .anime (Json.obj [])
      (assembleAttrs .anime (Json.obj []) none none none none none none none none none none none none none none none)))
      (some (Entity.mk .theme (Json.obj [])
      (assembleAttrs .theme (Json.obj []) none none none none none none none none none none none none none none none)))
      (some (Entity.mk .song (Json.obj [])
      (assembleAttrs .song (Json.obj []) none none none none none none none none none none none none none none none)))
      none none none none none none none none none none)) ("anime") = some (AttrVal.ent ea)) ∧
    (∃ et, hydrate Kind.theme (Json.obj []) = Except.ok et ∧
      Entity.getAttr (Entity.mk .entry (Json.obj [("anime", Json.obj []), ("theme", Json.obj []), ("song", Json.obj [])])
    (assembleAttrs .entry (Json.obj [("anime", Json.obj []), ("theme", Json.obj []), ("song", Json.obj [])])
      none none
      (some (Entity.mk .anime (Json.obj [])
      (assembleAttrs .anime (Json.obj []) none none none none none none none none none none none none none none none)))
      (some (Entity.mk .theme (Json.obj [])
      (assembleAttrs .theme (Json.obj []) none none none none none none none none none none none none none none none)))
      (some (Entity.mk .song (Json.obj [])
      (assembleAttrs .song (Json.obj []) none none none none none none none none none none none none none none none)))
      none none none none none none none none none none)) ("theme") = some (AttrVal.ent et)) ∧
    (∃ e2, hydrate Kind.song (Json.obj []) = Except.ok e2 ∧
      Entity.getAttr (Entity.mk .entry (Json.obj [("anime", Json.obj []), ("theme", Json.obj []), ("song", Json.obj [])])
    (assembleAttrs .entry (Json.obj [("anime", Json.obj []), ("theme", Json.obj []), ("song", Json.obj [])])
      none none
      (some (Entity.mk .anime (Json.obj [])
      (assembleAttrs .anime (Json.obj []) none none none none none none none none none none none none none none none)))
      (some (Entity.mk .theme (Json.obj [])
      (assembleAttrs .theme (Json.obj []) none none none none none none none none none none none none none none none)))
      (some (Entity.mk .song (Json.obj [])
      (assembleAttrs .song (Json.obj []) none none none none none none none none none none none none none none none)))
      none none none none none none none none none none)) ("song") = some (AttrVal.ent e2)) := by
  have hh : hydrate .entry (Json.obj [("anime", Json.obj []), ("theme", Json.obj []), ("song", Json.obj [])]) =
      Except.ok (Entity.mk .entry (Json.obj [("anime", Json.obj []), ("theme", Json.obj []), ("song", Json.obj [])])
    (assembleAttrs .entry (Json.obj [("anime", Json.obj []), ("theme", Json.obj []), ("song", Json.obj [])])
      none none
      (some (Entity.mk .anime (Json.obj [])
      (assembleAttrs .anime (Json.obj []) none none none none none none none none none none none none none none none)))
      (some (Entity.mk .theme (Json.obj [])
      (assembleAttrs .theme (Json.obj []) none none none none none none none none none none none none none none none)))
      (some (Entity.mk .song (Json.obj [])
      (assembleAttrs .song (Json.obj []) none none none none none none none none none none none none none none none)))
      none none none none none none none none none none)) := by
    simp [hydrate, hydrateList, hydrateTimestamp, singularRel, listRel, Json.get,
      Json.getD, Json.lookup, Json.truthy, List.lookup, except_bind_ok, except_pure,
      except_map_ok]
  exact ⟨hh, (singular_relations_each_retained .entry _ _ hh).1 [] rfl,
    (singular_relations_each_retained .entry _ _ hh).2.1 [] rfl,
    (singular_relations_each_retained .entry _ _ hh).2.2 [] rfl⟩

/-- A singular relation key holding no object leaves `theme`/`song` unset;
`anime` is unset when it holds neither an object nor an array. -/
theorem singular_nonobj_unset {kind : Kind} {j : Json} {e : Entity}
    (h : hydrate kind j = Except.ok e) :
    ((∀ kvs, j.get ("theme") ≠ Json.obj kvs) → e.getAttr ("theme") = none) ∧
    ((∀ kvs, j.get ("song") ≠ Json.obj kvs) → e.getAttr ("song") = none) ∧
    ((∀ kvs, j.get ("anime") ≠ Json.obj kvs) → (∀ xs, j.get ("anime") ≠ Json.arr xs) →
      e.getAttr ("anime") = none) := by
  obtain ⟨fields, c, u, a, t, s, l1, l2, l3, l4, l5, l6, l7, l8, l9, l10,
    hj, hc, hu, ha, ht, hsg, h1, h2, h3, h4, h5, h6, h7, h8, h9, h10, he⟩ :=
    hydrate_ok_destruct h
  subst he
  refine ⟨?_, ?_, ?_⟩
  · intro hno
    rw [singularRel_not_obj hno] at ht
    cases ht
    simp only [Entity.getAttr, Entity.attrs, lookup_assemble_theme, Option.map_none']
  · intro hno
    rw [singularRel_not_obj hno] at hsg
    cases hsg
    simp only [Entity.getAttr, Entity.attrs, lookup_assemble_song, Option.map_none']
  · intro hno hna
    rw [singularRel_not_obj hno] at ha
    cases ha
    rw [listRel_not_arr hna] at h2
    cases h2
    simp only [Entity.getAttr, Entity.attrs, lookup_assemble_anime, Option.map_none',
      opt_orElse_none]

/-- C5 counterexample: when the singular relation key `anime` holds a JSON
array (a non-object value), the attribute named `anime` is NOT left unset —
the list-relation rule writes a list of entities to the same attribute. -/
theorem singular_nonobject_counterexample :
    Except.map (fun e => Entity.getAttr e ("anime"))
      (hydrate .theme (Json.obj [("anime", Json.arr [])])) =
      Except.ok (some (AttrVal.entList [])) := by
  simp [hydrate, hydrateList, hydrateTimestamp, singularRel, listRel, Json.get,
    Json.getD, Json.lookup, Json.truthy, List.lookup, except_bind_ok, except_pure,
    except_map_ok, Entity.getAttr, Entity.attrs, assembleAttrs, listPart, singPart,
    tsPart, scalarSeg, extraSeg, optAttr, kindKeys, lookup_append, lookup_optAttr,
    opt_orElse_none, opt_orElse_some]

/-- C5 amended: a non-object value under `theme` or `song` leaves that
attribute unset, and a non-object, non-array value under `anime` leaves
`anime` unset, never raising an error from that key (a payload carrying only
such a key hydrates successfully); but an array under `anime` is taken over
by the list-relation rule, which writes the same attribute name.  A key
holding an object is recursively hydrated as the related kind and attached. -/
theorem singular_nonobject_tolerated :
    (∀ (kind : Kind) (j : Json) (e : Entity), hydrate kind j = Except.ok e →
      ((∀ kvs, j.get ("theme") ≠ Json.obj kvs) → e.getAttr ("theme") = none) ∧
      ((∀ kvs, j.get ("song") ≠ Json.obj kvs) → e.getAttr ("song") = none) ∧
      ((∀ kvs, j.get ("anime") ≠ Json.obj kvs) → (∀ xs, j.get ("anime") ≠ Json.arr xs) →
        e.getAttr ("anime") = none) ∧
      (∀ kvs, j.get ("theme") = Json.obj kvs →
        ∃ e2, hydrate Kind.theme (Json.obj kvs) = Except.ok e2 ∧
          e.getAttr ("theme") = some (AttrVal.ent e2))) ∧
    (∀ (kind : Kind) (v : Json), (∀ kvs, v ≠ Json.obj kvs) →
      ∃ e, hydrate kind (Json.obj [(("theme" : String), v)]) = Except.ok e ∧
        e.getAttr ("theme") = none) := by
  constructor
  · intro kind j e h
    exact ⟨(singular_nonobj_unset h).1, (singular_nonobj_unset h).2.1,
      (singular_nonobj_unset h).2.2, (singular_obj_attached h).2.1⟩
  · intro kind v hv
    have hgetth : (Json.obj [(("theme" : String), v)]).get ("theme") = v := by
      simp [Json.get, Json.getD, Json.lookup, List.lookup]
    have hget : ∀ key ∈ specialKeys, key ≠ ("theme") →
        (Json.obj [(("theme" : String), v)]).get key = Json.null := by
      intro key hk hne
      have hlk : Json.lookup (Json.obj [(("theme" : String), v)]) key = none := by
        apply lookup_eq_none
        intro p hp
        simp only [List.mem_cons, List.not_mem_nil, or_false] at hp
        subst hp
        exact Ne.symm hne
      rw [Json.get, Json.getD, hlk]
      rfl
    have hthm : singularRel (Json.obj [(("theme" : String), v)]) ("theme") Kind.theme =
        .ok none :=
      singularRel_not_obj (fun kvs hx => (hv kvs) (hgetth.symm.trans hx))
    refine ⟨Entity.mk kind (Json.obj [(("theme" : String), v)])
      (assembleAttrs kind (Json.obj [(("theme" : String), v)]) none none none none none
        none none none none none none none none none none), ?_, ?_⟩
    · simp only [hydrate,
        hydrateTimestamp_null (hget ("created_at") (by decide) (by decide)),
        hydrateTimestamp_null (hget ("updated_at") (by decide) (by decide)),
        singularRel_not_obj (fun kvs hx =>
          Json.noConfusion ((hget ("anime") (by decide) (by decide)).symm.trans hx)),
        hthm,
        singularRel_not_obj (fun kvs hx =>
          Json.noConfusion ((hget ("song") (by decide) (by decide)).symm.trans hx)),
        listRel_not_arr (fun ys hx =>
          Json.noConfusion ((hget ("songs") (by decide) (by decide)).symm.trans hx)),
        listRel_not_arr (fun ys hx =>
          Json.noConfusion ((hget ("anime") (by decide) (by decide)).symm.trans hx)),
        listRel_not_arr (fun ys hx =>
          Json.noConfusion ((hget ("themes") (by decide) (by decide)).symm.trans hx)),
        listRel_not_arr (fun ys hx =>
          Json.noConfusion ((hget ("videos") (by decide) (by decide)).symm.trans hx)),
        listRel_not_arr (fun ys hx =>
          Json.noConfusion ((hget ("series") (by decide) (by decide)).symm.trans hx)),
        listRel_not_arr (fun ys hx =>
          Json.noConfusion ((hget ("entries") (by decide) (by decide)).symm.trans hx)),
        listRel_not_arr (fun ys hx =>
          Json.noConfusion ((hget ("artists") (by decide) (by decide)).symm.trans hx)),
        listRel_not_arr (fun ys hx =>
          Json.noConfusion ((hget ("synonyms") (by decide) (by decide)).symm.trans hx)),
        listRel_not_arr (fun ys hx =>
          Json.noConfusion ((hget ("resources") (by decide) (by decide)).symm.trans hx)),
        listRel_not_arr (fun ys hx =>
          Json.noConfusion ((hget ("announcements") (by decide) (by decide)).symm.trans hx)),
        except_bind_ok, except_pure]
    · simp only [Entity.getAttr, Entity.attrs, lookup_assemble_theme, Option.map_none']

/-- Witness for the amended C5: a `Theme` hydrated from a payload whose
`theme` key holds the string `"x"` succeeds with the `theme` attribute
unset. -/
theorem singular_nonobject_tolerated_witness :
    (∀ kvs, Json.str ("x") ≠ Json.obj kvs) ∧
    (∃ e, hydrate .theme (Json.obj [(("theme" : String), Json.str ("x"))]) = Except.ok e ∧
      e.getAttr ("theme") = none) :=
  ⟨fun _ hx => Json.noConfusion hx,
   singular_nonobject_tolerated.2 .theme (Json.str ("x")) (fun _ hx => Json.noConfusion hx)⟩

theorem hydrateTimestamp_bad {j : Json} {key s : String}
    (h1 : j.get key = Json.str s) (h2 : s ≠ "") (h3 : parsedatetime s = none) :
    hydrateTimestamp j key = .error (.malformedTimestamp key s) := by
  simp [hydrateTimestamp, h1, Json.truthy, h3, h2]

theorem parsedatetime_ne_empty {s : String} {d : DateTime}
    (h : parsedatetime s = some d) : s ≠ "" := by
  intro hse
  subst hse
  rw [show parsedatetime ("") = none from by decide] at h
  exact Option.noConfusion h

/-- C6: a declared timestamp field holding a non-empty string that the
date parser rejects fails hydration with the `MalformedTimestamp` error
naming that field and value; a parseable value is converted to a structured
date-time and stored; and the example `2020-01-02T03:04:05Z` parses to
year 2020, month 1, day 2. -/
theorem timestamp_parsing :
    (∀ (kind : Kind) (fields : List (String × Json)) (s : String),
      (Json.obj fields).get ("created_at") = Json.str s → s ≠ "" →
      parsedatetime s = none →
      hydrate kind (Json.obj fields) =
        Except.error (PyError.malformedTimestamp ("created_at") s)) ∧
    (∀ (kind : Kind) (fields : List (String × Json)) (s : String) (c : Option DateTime),
      (Json.obj fields).get ("updated_at") = Json.str s → s ≠ "" →
      parsedatetime s = none →
      hydrateTimestamp (Json.obj fields) ("created_at") = .ok c →
      hydrate kind (Json.obj fields) =
        Except.error (PyError.malformedTimestamp ("updated_at") s)) ∧
    (∀ (kind : Kind) (j : Json) (e : Entity) (s : String) (d : DateTime),
      hydrate kind j = Except.ok e → j.get ("created_at") = Json.str s →
      parsedatetime s = some d →
      e.getAttr ("created_at") = some (AttrVal.date d)) ∧
    parsedatetime ("2020-01-02T03:04:05Z") = some ⟨2020, 1, 2, 3, 4, 5⟩ := by
  refine ⟨?_, ?_, ?_, by decide⟩
  · intro kind fields s h1 h2 h3
    simp only [hydrate, hydrateTimestamp_bad h1 h2 h3, except_bind_err]
  · intro kind fields s c h1 h2 h3 hc
    simp only [hydrate, hc, except_bind_ok, hydrateTimestamp_bad h1 h2 h3,
      except_bind_err]
  · intro kind j e s d h hget hparse
    obtain ⟨fields, c, u, a, t, s2, l1, l2, l3, l4, l5, l6, l7, l8, l9, l10,
      hj, hc, hu, ha, ht, hsg, h1, h2, h3, h4, h5, h6, h7, h8, h9, h10, he⟩ :=
      hydrate_ok_destruct h
    subst he
    have hsne : s ≠ "" := parsedatetime_ne_empty hparse
    have hts : hydrateTimestamp j ("created_at") = .ok (some d) := by
      simp [hydrateTimestamp, hget, Json.truthy, hparse, hsne]
    rw [hts] at hc
    cases hc
    simp only [Entity.getAttr, Entity.attrs, lookup_assemble_created, Option.map_some']

/-- Witness for C6: hydrating `{"created_at": "not-a-date"}` fails with
`MalformedTimestamp`, and the parseable example is checked concretely. -/
theorem timestamp_parsing_witness :
    parsedatetime ("not-a-date") = none ∧
    hydrate .song (Json.obj [(("created_at" : String), Json.str ("not-a-date"))]) =
      Except.error (PyError.malformedTimestamp ("created_at") ("not-a-date")) :=
  ⟨by decide, timestamp_parsing.1 .song _ ("not-a-date") rfl (by decide) (by decide)⟩

/-- Python truthiness of an attribute value (`datetime` objects and entity
objects are truthy; a list is truthy when non-empty). -/
def attrTruthy : AttrVal → Bool
  | .json v => v.truthy
  | .date _ => true
  | .ent _ => true
  | .entList es => !es.isEmpty

/-- The string carried by an attribute, when it holds one. -/
def attrStr : AttrVal → Option String
  | .json (.str s) => some s
  | _ => none

/-- The recognized site identifiers of `Resource.site_id`. -/
def sites : List String := ["mal", "myanimelist", "anilist", "anidb"]


/-- Python `str.lower`, over the character list of the string (the core
`String.toLower` navigates byte positions, which a proof kernel reduces
poorly; the character-list form is extensionally the same on these ASCII
identifiers). -/
def pyLower (s : String) : String :=
  String.mk (s.data.map Char.toLower)

/-- The characters remaining after a fixed prefix, or `none` when the
prefix does not match. -/
def charsAfter : List Char → List Char → Option (List Char)
  | [], rest => some rest
  | _ :: _, [] => none
  | p :: ps, c :: cs => if p == c then charsAfter ps cs else none

/-- Maximal leading run of ASCII digits, as captured by a greedy `[\d]+`. -/
def digitsTake : List Char → List Char
  | [] => []
  | c :: cs => if c.isDigit then c :: digitsTake cs else []

/-- Anchored match of one ID URL pattern: the regexes anchor at the start of
the link, require at least one digit after the fixed prefix, and capture the
maximal digit run (trailing text is permitted, as with `re.match`). -/
def matchIdAt (pre link : String) : Option String :=
  match charsAfter pre.data link.data with
  | none => none
  | some rest =>
      match digitsTake rest with
      | [] => none
      | ds => some (String.mk ds)

/-- `AL_ID_PATTERN`. -/
def alPat (link : String) : Option String :=
  matchIdAt ("https://anilist.co/anime/") link

/-- `MAL_ID_PATTERN`. -/
def malPat (link : String) : Option String :=
  matchIdAt ("https://myanimelist.net/anime/") link

/-- `ADB_ID_PATTERN`, an alternation of the two historical AniDB URL forms
(the left alternative is preferred, as in the regex). -/
def adbPat (link : String) : Option String :=
  match matchIdAt ("https://anidb.net/perl-bin/animedb.pl?show=anime&aid=") link with
  | some ds => some ds
  | none => matchIdAt ("https://anidb.net/anime/") link

/-- `Resource.site_id`: `None` when the link is falsy or the lowered site is
not recognized (without touching the patterns); otherwise the first of the
three patterns that matches wins, yielding `(self.site, digits)`; no match
yields `None`.  The `len(match.groups()) < 1` guard is vacuous (every
pattern has exactly one group).  A missing attribute raises
`AttributeError`; pattern-matching a truthy non-string link raises
`TypeError`. -/
def resourceSiteId (r : Entity) : Except PyError (Option (String × String)) :=
  match r.getAttr ("link") with
  | none => .error .attributeError
  | some linkA =>
    if attrTruthy linkA then
      match r.getAttr ("site") with
      | none => .error .attributeError
      | some siteA =>
        match attrStr siteA with
        | none => .error .attributeError
        | some s =>
          if sites.contains (pyLower s) then
            match attrStr linkA with
            | none => .error .typeError
            | some link =>
              match alPat link with
              | some ds => .ok (some (s, ds))
              | none =>
                match malPat link with
                | some ds => .ok (some (s, ds))
                | none =>
                  match adbPat link with
                  | some ds => .ok (some (s, ds))
                  | none => .ok none
          else .ok none
    else .ok none

/-- The loop of `Anime._site_id`: the first resource whose lowered `site`
equals the lowered requested name is committed to; its `site_id()` result is
tuple-unpacked, so a `None` result raises `TypeError` (`cannot unpack
non-iterable NoneType`). -/
def animeSiteIdLoop (site : String) : List Entity → Except PyError (Option String)
  | [] => .ok none
  | r :: rest =>
    match r.getAttr ("site") with
    | none => .error .attributeError
    | some sa =>
      match attrStr sa with
      | none => .error .attributeError
      | some s =>
        if pyLower s == pyLower site then
          match resourceSiteId r with
          | .ok (some (_, ds)) => .ok (some ds)
          | .ok none => .error .typeError
          | .error e => .error e
        else animeSiteIdLoop site rest

/-- `Anime._site_id`: iterate `self.resources` (raising `AttributeError`
when the attribute was never set, `TypeError` when it is not a list). -/
def animeSiteId (a : Entity) (site : String) : Except PyError (Option String) :=
  match a.getAttr ("resources") with
  | none => .error .attributeError
  | some (.entList rs) => animeSiteIdLoop site rs
  | some _ => .error .typeError

/-- `Anime.mal_id`. -/
def malId (a : Entity) : Except PyError (Option String) :=
  animeSiteId a ("myanimelist")

/-- `Anime.anilist_id`. -/
def anilistId (a : Entity) : Except PyError (Option String) :=
  animeSiteId a ("anilist")

/-- `Anime.anidb_id`. -/
def anidbId (a : Entity) : Except PyError (Option String) :=
  animeSiteId a ("anidb")

instance {ε α : Type} [DecidableEq ε] [DecidableEq α] : DecidableEq (Except ε α) :=
  fun a b =>
    match a, b with
    | .ok x, .ok y =>
        match decEq x y with
        | isTrue h => isTrue (by rw [h])
        | isFalse h => isFalse (by intro hc; cases hc; exact h rfl)
    | .error x, .error y =>
        match decEq x y with
        | isTrue h => isTrue (by rw [h])
        | isFalse h => isFalse (by intro hc; cases hc; exact h rfl)
    | .ok _, .error _ => isFalse (by intro hc; cases hc)
    | .error _, .ok _ => isFalse (by intro hc; cases hc)


/-- C9: on an Anime whose resources hold the MAL entry, `_site_id("mal")`
extracts `"5114"`; with only a Twitter resource it is absent; and a
resource whose lowered site is not one of the four recognized identifiers
is fast-rejected without attempting any URL pattern (the result is `None`
even when the link is a truthy non-string, which pattern matching would
reject with `TypeError`). -/
theorem external_id_extraction :
    (do
      let e ← hydrate .anime (Json.obj [("resources", Json.arr
        [Json.obj [("site", Json.str ("MAL")),
                   ("link", Json.str ("https://myanimelist.net/anime/5114"))]])])
      animeSiteId e ("mal")) = Except.ok (some ("5114")) ∧
    (do
      let e ← hydrate .anime (Json.obj [("resources", Json.arr
        [Json.obj [("site", Json.str ("Twitter")),
                   ("link", Json.str ("https://twitter.com/x"))]])])
      animeSiteId e ("mal")) = Except.ok none ∧
    (∀ (r : Entity) (lv : AttrVal) (s : String),
      r.getAttr ("link") = some lv →
      r.getAttr ("site") = some (AttrVal.json (Json.str s)) →
      sites.contains (pyLower s) = false →
      resourceSiteId r = Except.ok none) := by
  refine ⟨?_, ?_, ?_⟩
  · have hh : hydrate .anime (Json.obj [("resources", Json.arr
        [Json.obj [("site", Json.str ("MAL")),
                   ("link", Json.str ("https://myanimelist.net/anime/5114"))]])]) =
        Except.ok (Entity.mk .anime (Json.obj [("resources", Json.arr
          [Json.obj [("site", Json.str ("MAL")),
                     ("link", Json.str ("https://myanimelist.net/anime/5114"))]])])
          (assembleAttrs .anime (Json.obj [("resources", Json.arr
            [Json.obj [("site", Json.str ("MAL")),
                       ("link", Json.str ("https://myanimelist.net/anime/5114"))]])])
            none none none none none none none none none none none none none
            (some [Entity.mk .resource (Json.obj
              [("site", Json.str ("MAL")),
               ("link", Json.str ("https://myanimelist.net/anime/5114"))])
              (assembleAttrs .resource (Json.obj
                [("site", Json.str ("MAL")),
                 ("link", Json.str ("https://myanimelist.net/anime/5114"))])
                none none none none none none none none none none none none none
                none none)])
            none)) := by
      simp [hydrate, hydrateList, hydrateTimestamp, singularRel, listRel, Json.get,
        Json.getD, Json.lookup, Json.truthy, List.lookup, except_bind_ok, except_pure,
        except_map_ok]
    rw [hh, except_bind_ok]
    decide
  · have hh : hydrate .anime (Json.obj [("resources", Json.arr
        [Json.obj [("site", Json.str ("Twitter")),
                   ("link", Json.str ("https://twitter.com/x"))]])]) =
        Except.ok (Entity.mk .anime (Json.obj [("resources", Json.arr
          [Json.obj [("site", Json.str ("Twitter")),
                     ("link", Json.str ("https://twitter.com/x"))]])])
          (assembleAttrs .anime (Json.obj [("resources", Json.arr
            [Json.obj [("site", Json.str ("Twitter")),
                       ("link", Json.str ("https://twitter.com/x"))]])])
            none none none none none none none none none none none none none
            (some [Entity.mk .resource (Json.obj
              [("site", Json.str ("Twitter")), ("link", Json.str ("https://twitter.com/x"))])
              (assembleAttrs .resource (Json.obj
                [("site", Json.str ("Twitter")),
                 ("link", Json.str ("https://twitter.com/x"))])
                none none none none none none none none none none none none none
                none none)])
            none)) := by
      simp [hydrate, hydrateList, hydrateTimestamp, singularRel, listRel, Json.get,
        Json.getD, Json.lookup, Json.truthy, List.lookup, except_bind_ok, except_pure,
        except_map_ok]
    rw [hh, except_bind_ok]
    decide
  · intro r lv s hlink hsite hc
    have hmem : pyLower s ∉ sites := by simpa using hc
    simp [resourceSiteId, hlink, hsite, attrStr, hmem]

/-- Witness for the fast-reject conjunct of C9 at a concrete resource whose
site is `Twitter` and whose link is the truthy non-string `1`. -/
theorem external_id_extraction_witness :
    Entity.getAttr (Entity.mk .resource (Json.obj [])
        [(("link" : String), AttrVal.json (Json.num 1)),
         (("site" : String), AttrVal.json (Json.str ("Twitter")))]) ("link") =
      some (AttrVal.json (Json.num 1)) ∧
    sites.contains (pyLower ("Twitter")) = false ∧
    resourceSiteId (Entity.mk .resource (Json.obj [])
        [(("link" : String), AttrVal.json (Json.num 1)),
         (("site" : String), AttrVal.json (Json.str ("Twitter")))]) = Except.ok none := by
  refine ⟨rfl, by decide, ?_⟩
  exact external_id_extraction.2.2 _ (AttrVal.json (Json.num 1)) ("Twitter") rfl rfl
    (by decide)

/-- C2, as the code behaves: an Anime whose single resource matches the
requested recognized site (`AniList`) but whose link fits none of the three
URL patterns makes `_site_id` tuple-unpack the `None` returned by
`Resource.site_id`, raising `TypeError` — not the absent result the
method's own docstring ("or `None` if not found") promises. -/
theorem site_id_no_pattern_typeerror :
    (do
      let e ← hydrate .anime (Json.obj [("resources", Json.arr
        [Json.obj [("site", Json.str ("AniList")),
                   ("link", Json.str ("https://example.com/x"))]])])
      animeSiteId e ("anilist")) = Except.error PyError.typeError := by
  have hh : hydrate .anime (Json.obj [("resources", Json.arr
      [Json.obj [("site", Json.str ("AniList")),
                 ("link", Json.str ("https://example.com/x"))]])]) =
      Except.ok (Entity.mk .anime (Json.obj [("resources", Json.arr
        [Json.obj [("site", Json.str ("AniList")),
                   ("link", Json.str ("https://example.com/x"))]])])
        (assembleAttrs .anime (Json.obj [("resources", Json.arr
          [Json.obj [("site", Json.str ("AniList")),
                     ("link", Json.str ("https://example.com/x"))]])])
          none none none none none none none none none none none none none
          (some [Entity.mk .resource (Json.obj
            [("site", Json.str ("AniList")), ("link", Json.str ("https://example.com/x"))])
            (assembleAttrs .resource (Json.obj
              [("site", Json.str ("AniList")),
               ("link", Json.str ("https://example.com/x"))])
              none none none none none none none none none none none none none
              none none)])
          none)) := by
    simp [hydrate, hydrateList, hydrateTimestamp, singularRel, listRel, Json.get,
      Json.getD, Json.lookup, Json.truthy, List.lookup, except_bind_ok, except_pure,
      except_map_ok]
  rw [hh, except_bind_ok]
  decide

/-- The fixed request headers of the `AnimeThemes` client
(`animethemes.py`), sent with every follow-up page request. -/
def clientHeaders : List (String × String) :=
  [("Accept", "application/json, text/plain, */*"),
   ("Accept-Encoding", "gzip, deflate, br"),
   ("Content-Type", "application/json"),
   ("User-Agent", "Mozilla/5.0 (X11; Linux x86_64; rv:42.0) Gecko/20100101 Firefox/42.0")]

/-- `PagedResult.__init__`: the generic hydration followed by the four
pagination counters read from `data.get("meta", {})` (an `AttributeError`
when a stored `meta` is not a dict, as `.get` is then unavailable). -/
def hydratePagedResult (j : Json) : Except PyError Entity := do
  let e ← hydrate .pagedResult j
  match Json.getD j ("meta") (.obj []) with
  | .obj ms =>
      pure (Entity.mk .pagedResult j
        ([(("current_page" : String), AttrVal.json ((Json.obj ms).get ("current_page"))),
          (("per_page" : String), AttrVal.json ((Json.obj ms).get ("per_page"))),
          (("from_result" : String), AttrVal.json ((Json.obj ms).get ("from"))),
          (("to_result" : String), AttrVal.json ((Json.obj ms).get ("to")))] ++ e.attrs))
  | _ => .error .attributeError

/-- One pagination-navigation operation over the retained raw payload:
reads `self._data.get("links", {}).get(name)`; a falsy link yields no page
and no request; a URL yields exactly one GET (recorded in the first
component as the pair of URL and headers) whose JSON body is hydrated as a
fresh `PagedResult`.  The transport `net` stands for a successful
`requests.get(...).json()`; non-2xx propagation is the transport's concern
and out of scope here. -/
def pageNav (net : String → Json) (data : Json) (name : String) :
    List (String × List (String × String)) × Except PyError (Option Entity) :=
  match data with
  | .obj _ =>
    match Json.getD data ("links") (.obj []) with
    | .obj ls =>
        let link := (Json.obj ls).get name
        if link.truthy then
          match link with
          | .str url => ([(url, clientHeaders)], (hydratePagedResult (net url)).map some)
          | _ => ([], .error .typeError)
        else ([], .ok none)
    | _ => ([], .error .attributeError)
  | _ => ([], .error .attributeError)

/-- `PagedResult.first_page`. -/
def firstPage (net : String → Json) (data : Json) := pageNav net data ("first")

/-- `PagedResult.next_page`. -/
def nextPage (net : String → Json) (data : Json) := pageNav net data ("next")

/-- `PagedResult.prev_page`. -/
def prevPage (net : String → Json) (data : Json) := pageNav net data ("prev")

/-- `PagedResult.last_page`. -/
def lastPage (net : String → Json) (data : Json) := pageNav net data ("last")

/-- C7: with no (or a falsy) `links.next`, `next_page` answers "no such
page" with an empty request log — no network call; with `links.next` a
non-empty URL string, it performs exactly one GET to that URL with the
client's fixed headers and returns the response body hydrated as a fresh
`PagedResult`. -/
theorem paged_next :
    (∀ (net : String → Json) (fields : List (String × Json)) (ls : List (String × Json)),
      Json.getD (Json.obj fields) ("links") (.obj []) = Json.obj ls →
      ((Json.obj ls).get ("next")).truthy = false →
      nextPage net (Json.obj fields) = ([], Except.ok none)) ∧
    (∀ (net : String → Json) (fields : List (String × Json)) (ls : List (String × Json))
        (url : String),
      Json.getD (Json.obj fields) ("links") (.obj []) = Json.obj ls →
      (Json.obj ls).get ("next") = Json.str url → url ≠ "" →
      nextPage net (Json.obj fields) =
        ([(url, clientHeaders)], (hydratePagedResult (net url)).map some)) := by
  constructor
  · intro net fields ls hlinks htr
    simp only [nextPage, pageNav, hlinks, htr]
    rfl
  · intro net fields ls url hlinks hurl hne
    simp only [nextPage, pageNav, hlinks, hurl, Json.truthy]
    simp [hne]

/-- Witness for C7: a page without `links` follows no link, and a page with
`links.next` performs the single recorded GET. -/
theorem paged_next_witness :
    Json.getD (Json.obj [(("data" : String), Json.arr [])]) ("links") (.obj []) =
      Json.obj [] ∧
    ((Json.obj ([] : List (String × Json))).get ("next")).truthy = false ∧
    nextPage (fun _ => Json.obj []) (Json.obj [(("data" : String), Json.arr [])]) =
      ([], Except.ok none) ∧
    nextPage (fun _ => Json.obj [])
        (Json.obj [(("links" : String),
          Json.obj [(("next" : String), Json.str ("https://animethemes.dev/api/x?page=2"))])]) =
      ([(("https://animethemes.dev/api/x?page=2"), clientHeaders)],
        (hydratePagedResult (Json.obj [])).map some) :=
  ⟨rfl, rfl, paged_next.1 _ _ _ rfl rfl,
   paged_next.2 _ _ [(("next" : String), Json.str ("https://animethemes.dev/api/x?page=2"))]
     _ rfl rfl (by decide)⟩
